import Mathlib

/-!
Shallow embedding of the fuzzy path-matching core (`src/zed/src/worktree/fuzzy.rs`).

Modelling conventions:
* `f64` scores are modelled as exact rationals `ℚ`.  All score arithmetic in the
  source is multiplication, division by a positive integer, `max`, and comparisons,
  so the rational model is exact; the float literal `1e-18` is modelled as `10⁻¹⁸`.
* Rust slices of `char` are `List Char`; panicking out-of-bounds indexing is
  modelled by `List.getD` (all indices are in bounds on reachable paths).
* `CharBag` (whose implementation lives outside this crate) is modelled from the
  spec as the list of characters it was built from, with `is_superset` a true
  subset test.
* `Snapshot` (outside this crate) is modelled from the spec: an id, a root name,
  and the file lists backing `files(start)` / `visible_files(start)`;
  `file_count` / `visible_file_count` are their lengths.
* The worker pool runs each worker to completion; since workers share no mutable
  state (each owns its heap, scratch and `min_score`, and the cancel flag is
  read-only), the parallel run is modelled by running the workers in order.
  The cancellation flag is modelled as the constant value every relaxed load of
  it returns during the call.
* ASCII scope (per the spec, Unicode normalization beyond ASCII lowercasing is a
  non-goal): `to_lowercase`/`to_ascii_lowercase` are modelled by `toAsciiLower`,
  and Rust's `is_numeric`/`is_lowercase`/`is_uppercase` by the ASCII
  `Char.isDigit`/`Char.isLower`/`Char.isUpper`.
-/

/-- Rust `char::to_ascii_lowercase`: shift `'A'..='Z'` down by 32, leave the rest. -/
def toAsciiLower (c : Char) : Char :=
  if 'A' ≤ c ∧ c ≤ 'Z' then Char.ofNat (c.toNat + 32) else c

/-- Modelled from the spec: `CharBag` (implemented outside this crate) is an
ASCII-presence fingerprint; we model it as the character list it was built from. -/
abbrev CharBag := List Char

/-- Modelled from the spec: `CharBag::from` on a character slice. -/
def CharBag.ofChars (chars : List Char) : CharBag := chars

/-- Modelled from the spec: `CharBag::is_superset` is a true subset test. -/
def CharBag.is_superset (bag other : CharBag) : Prop := ∀ c ∈ other, c ∈ bag

instance (bag other : CharBag) : Decidable (bag.is_superset other) :=
  inferInstanceAs (Decidable (∀ c ∈ other, c ∈ bag))

/-- `MatchCandidate`: a path (as characters) plus its precomputed `CharBag`
(the bag of its lowercased characters, precomputed upstream). -/
structure MatchCandidate where
  path : List Char
  char_bag : CharBag
deriving DecidableEq

/-- `PathMatch`: the result record. -/
structure PathMatch where
  score : ℚ
  positions : List ℕ
  tree_id : ℕ
  path : List Char
deriving DecidableEq

/-- Modelled from the spec: `Snapshot` (defined outside this crate) as the data
the matcher reads: id, root name, and the file sequences. -/
structure Snapshot where
  id : ℕ
  root_name : List Char
  files : List MatchCandidate
  visible_files : List MatchCandidate
deriving DecidableEq

def Snapshot.file_count (s : Snapshot) : ℕ := s.files.length

def Snapshot.visible_file_count (s : Snapshot) : ℕ := s.visible_files.length

def BASE_DISTANCE_PENALTY : ℚ := 6/10

def ADDITIONAL_DISTANCE_PENALTY : ℚ := 5/100

def MIN_DISTANCE_PENALTY : ℚ := 2/10

/-- The float literal `1e-18` used as the non-zero memo sentinel. -/
def SENTINEL_SCORE : ℚ := 1/1000000000000000000

/-- `find_last_positions` helper: the rightmost index `j < n` with `l[j] = c`
(`n` is how much of the slice the reversed iterator has not consumed yet). -/
def last_idx_lt (l : List Char) (c : Char) (n : ℕ) : Option ℕ :=
  ((List.range n).filter (fun j => l.get? j == some c)).getLast?

/-- The reverse walk of `find_last_positions` over the reversed query.
State: how much of `path` resp. `pfx` is still unconsumed.  A failed
`rposition` on the path iterator exhausts it (remaining length 0), exactly as
Rust's `Iterator::rposition`. Returns the positions in reverse query order. -/
def flp_go (pfx path : List Char) : List Char → ℕ → ℕ → Option (List ℕ)
  | [], _, _ => some []
  | c :: rest, path_n, pfx_n =>
    match last_idx_lt path c path_n with
    | some j => (flp_go pfx path rest j pfx_n).map (fun lp => (j + pfx.length) :: lp)
    | none =>
      match last_idx_lt pfx c pfx_n with
      | some j => (flp_go pfx path rest 0 j).map (fun lp => j :: lp)
      | none => none

/-- `find_last_positions`: fills `last_positions` walking the query in reverse;
`none` models returning `false` (the array contents are unused in that case). -/
def find_last_positions (pfx path query : List Char) : Option (List ℕ) :=
  (flp_go pfx path query.reverse path.length pfx.length).map List.reverse

/-- Read-only context of one `score_match` call.  Field names follow the
parameters of `recursive_score_match` (`query` is the original-cased query,
`query_cased` the lowercased one; `path` original-cased, `path_cased`
lowercased; `pfx`/`lowercase_pfx` are the `prefix`/`lowercase_prefix` slices). -/
structure ScoreCtx where
  query : List Char
  query_cased : List Char
  path : List Char
  path_cased : List Char
  pfx : List Char
  lowercase_pfx : List Char
  smart_case : Bool
  last_positions : List ℕ
  min_score : ℚ

def ScoreCtx.path_len (ctx : ScoreCtx) : ℕ := ctx.pfx.length + ctx.path.length

/-- The two scratch matrices (`score_matrix`, `best_position_matrix`), cleared and
resized to `query.len() * (prefix.len() + path.len())` before each candidate. -/
structure ScoreMats where
  score_matrix : List (Option ℚ)
  best_position_matrix : List ℕ

/-- Accumulator of the column loop `for j in path_idx..=limit` inside
`recursive_score_match`; `broke` records that the `new_score == 1.0` break fired. -/
structure LoopAcc where
  score : ℚ
  best_position : ℕ
  last_slash : ℕ
  mats : ScoreMats
  broke : Bool

/-- The `char_score` cascade of `recursive_score_match` for a column `j > path_idx`
(`last` is the character before column `j`, `curr` the original-cased character at
`j`).  Rust's `is_numeric` is ASCII-restricted to `isDigit` per the spec's scope. -/
def char_score_cascade (last curr : Char) (query_idx j path_idx : ℕ) : ℚ :=
  if last = '/' then 9/10
  else if last = '-' ∨ last = '_' ∨ last = ' ' ∨ last.isDigit then 8/10
  else if last.isLower ∧ curr.isUpper then 8/10
  else if last = '.' then 7/10
  else if query_idx = 0 then BASE_DISTANCE_PENALTY
  else
    max MIN_DISTANCE_PENALTY
      (BASE_DISTANCE_PENALTY - ((j - path_idx - 1 : ℕ) : ℚ) * ADDITIONAL_DISTANCE_PENALTY)

/-- `char_score` as computed for an accepted column: `1.0` at `j == path_idx`,
otherwise the cascade. -/
def char_score_of (last curr : Char) (query_idx j path_idx : ℕ) : ℚ :=
  if path_idx < j then char_score_cascade last curr query_idx j path_idx else 1

/-- One iteration of the column loop of `recursive_score_match`.  `recur` is the
recursive call at `query_idx + 1` (abstracted so the loop can be stated as a
`foldl`); once `broke` is set the remaining columns are skipped. -/
def score_step (ctx : ScoreCtx) (recur : ℕ → ℚ → ScoreMats → ℚ × ScoreMats)
    (query_idx path_idx : ℕ) (cur_score : ℚ) (acc : LoopAcc) (j : ℕ) : LoopAcc :=
  if acc.broke then acc
  else
    let path_char :=
      if j < ctx.pfx.length then ctx.lowercase_pfx.getD j ' '
      else ctx.path_cased.getD (j - ctx.pfx.length) ' '
    let is_path_sep := path_char = '/' ∨ path_char = '\\'
    let ls := if query_idx = 0 ∧ is_path_sep then j else acc.last_slash
    let query_char := ctx.query_cased.getD query_idx ' '
    if query_char = path_char ∨ ((is_path_sep ∧ query_char = '_') ∨ query_char = '\\') then
      let curr :=
        if j < ctx.pfx.length then ctx.pfx.getD j ' '
        else ctx.path.getD (j - ctx.pfx.length) ' '
      let last :=
        if j - 1 < ctx.pfx.length then ctx.pfx.getD (j - 1) ' '
        else ctx.path.getD (j - 1 - ctx.pfx.length) ' '
      let cs := char_score_of last curr query_idx j path_idx
      let char_score :=
        if (ctx.smart_case ∨ curr = '/') ∧ ctx.query.getD query_idx ' ' ≠ curr then
          cs * (1/1000)
        else cs
      let multiplier :=
        if query_idx = 0 then char_score / ((ctx.path_len - ls : ℕ) : ℚ) else char_score
      let next_score := if 0 < ctx.min_score then cur_score * multiplier else 1
      if 0 < ctx.min_score ∧ cur_score * multiplier < ctx.min_score then
        { acc with
          score := if acc.score = 0 then SENTINEL_SCORE else acc.score
          last_slash := ls }
      else
        let r := recur (j + 1) next_score acc.mats
        let new_score := r.1 * multiplier
        if acc.score < new_score then
          { score := new_score
            best_position := j
            last_slash := ls
            mats := r.2
            broke := if new_score = 1 then true else false }
        else { acc with mats := r.2, last_slash := ls }
    else { acc with last_slash := ls }

/-- `recursive_score_match`.  The extra `fuel` argument makes the recursion
structural; every call site passes `fuel ≥ query.length - query_idx`, so the
`fuel = 0` branch is unreachable (`query_idx` grows by 1 per recursion and the
recursion stops at `query_idx = query.length`). -/
def recursive_score_match (ctx : ScoreCtx) :
    ℕ → ℕ → ℕ → ℚ → ScoreMats → ℚ × ScoreMats
  | fuel, query_idx, path_idx, cur_score, mats =>
    if query_idx = ctx.query.length then (1, mats)
    else
      match fuel with
      | 0 => (0, mats)
      | fuel' + 1 =>
        let idx := query_idx * ctx.path_len + path_idx
        match mats.score_matrix.getD idx none with
        | some memoized => (memoized, mats)
        | none =>
          let limit := ctx.last_positions.getD query_idx 0
          let acc :=
            (List.range' path_idx (limit + 1 - path_idx)).foldl
              (score_step ctx
                (fun p c m => recursive_score_match ctx fuel' (query_idx + 1) p c m)
                query_idx path_idx cur_score)
              ⟨0, 0, 0, mats, false⟩
          let bpm :=
            if acc.best_position ≠ 0 then
              acc.mats.best_position_matrix.set idx acc.best_position
            else acc.mats.best_position_matrix
          (acc.score, ⟨acc.mats.score_matrix.set idx (some acc.score), bpm⟩)

/-- Reconstruction of `match_positions` from `best_position_matrix`
(`match_positions[i] = bpm[i * path_len + cur_start]; cur_start = that + 1`). -/
def build_positions (bpm : List ℕ) (path_len : ℕ) : ℕ → ℕ → ℕ → List ℕ
  | 0, _, _ => []
  | n + 1, i, cur_start =>
    let p := bpm.getD (i * path_len + cur_start) 0
    p :: build_positions bpm path_len n (i + 1) (p + 1)

/-- `score_match`: run the recursion from `(0, 0)` with `cur_score = query.len()`,
scale by `query.len()`, and reconstruct the positions when the score is positive.
Returns `(score, final matrices, match_positions)`; on a non-positive score the
source leaves `match_positions` untouched (and unread), modelled as `[]`. -/
def score_match (ctx : ScoreCtx) (mats : ScoreMats) : ℚ × ScoreMats × List ℕ :=
  let r := recursive_score_match ctx ctx.query.length 0 0 (ctx.query.length : ℚ) mats
  let score := r.1 * (ctx.query.length : ℚ)
  if score ≤ 0 then (0, r.2, [])
  else (score, r.2, build_positions r.2.best_position_matrix ctx.path_len ctx.query.length 0 0)

/-- Per-worker collector state: the heap (modelled as the list of pushed results,
most recent first) and the pruning floor `min_score`. -/
structure SegState where
  results : List PathMatch
  min_score : ℚ

/-- The score of `results.peek()` of the `BinaryHeap<Reverse<PathMatch>>`:
`PathMatch`'s ordering compares only scores, so this is the minimum score. -/
def heap_min_score (results : List PathMatch) : ℚ :=
  ((results.map PathMatch.score).min?).getD 0

/-- The body of `match_single_tree_paths`' candidate loop after the `CharBag`
and cancellation checks: last-position prefilter, matrix reset, scoring, and
the conditional push / `min_score` update. -/
def process_candidate (snapshot : Snapshot) (include_root_name : Bool)
    (query lowercase_query : List Char) (smart_case : Bool) (max_results : ℕ)
    (st : SegState) (c : MatchCandidate) : SegState :=
  let pfx := if include_root_name then snapshot.root_name else []
  let lowercase_pfx := pfx.map toAsciiLower
  let path_chars := c.path
  let lowercase_path_chars := c.path.map toAsciiLower
  match find_last_positions lowercase_pfx lowercase_path_chars lowercase_query with
  | none => st
  | some last_positions =>
    let matrix_len := query.length * (path_chars.length + pfx.length)
    let mats : ScoreMats := ⟨List.replicate matrix_len none, List.replicate matrix_len 0⟩
    let ctx : ScoreCtx :=
      ⟨query, lowercase_query, path_chars, lowercase_path_chars, pfx, lowercase_pfx,
        smart_case, last_positions, st.min_score⟩
    let r := score_match ctx mats
    if 0 < r.1 then
      let results' := PathMatch.mk r.1 r.2.2 snapshot.id c.path :: st.results
      ⟨results', if results'.length = max_results then heap_min_score results' else st.min_score⟩
    else st

/-- `match_single_tree_paths`: iterate the candidates of one snapshot slice,
skipping candidates whose bag is not a superset of the query bag, and stopping
at an observed cancellation. -/
def match_single_tree_paths (snapshot : Snapshot) (include_root_name : Bool)
    (path_entries : List MatchCandidate) (query lowercase_query : List Char)
    (query_chars : CharBag) (smart_case : Bool) (max_results : ℕ)
    (cancel_flag : Bool) (st : SegState) : SegState :=
  match path_entries with
  | [] => st
  | c :: rest =>
    if ¬ c.char_bag.is_superset query_chars then
      match_single_tree_paths snapshot include_root_name rest query lowercase_query
        query_chars smart_case max_results cancel_flag st
    else if cancel_flag then st
    else
      match_single_tree_paths snapshot include_root_name rest query lowercase_query
        query_chars smart_case max_results cancel_flag
        (process_candidate snapshot include_root_name query lowercase_query smart_case
          max_results st c)

/-- The file sequence a worker iterates on one snapshot
(`snapshot.files(...)` when `include_ignored`, else `snapshot.visible_files(...)`). -/
def tree_files (include_ignored : Bool) (s : Snapshot) : List MatchCandidate :=
  if include_ignored then s.files else s.visible_files

/-- The snapshot slices one worker walks: snapshots overlapping
`[segment_start, segment_end)`, each restricted to the overlap, stopping as soon
as `tree_end ≥ segment_end` (`tree_start` is the global index of the snapshot's
first file). -/
def worker_slices (include_ignored : Bool) (segment_start segment_end : ℕ) :
    List Snapshot → ℕ → List (Snapshot × List MatchCandidate)
  | [], _ => []
  | s :: rest, tree_start =>
    let tree_end :=
      tree_start + (if include_ignored then s.file_count else s.visible_file_count)
    let here :=
      if tree_start < segment_end ∧ segment_start < tree_end then
        let start := max tree_start segment_start - tree_start
        let stop := min tree_end segment_end - tree_start
        [(s, (((tree_files include_ignored s).drop start).take (stop - start)))]
      else []
    if segment_end ≤ tree_end then here
    else here ++ worker_slices include_ignored segment_start segment_end rest tree_end

/-- One worker: fresh heap and `min_score = 0`, then `match_single_tree_paths`
over each overlapping snapshot slice, threading heap, `min_score` and scratch. -/
def run_worker (include_root_name include_ignored : Bool)
    (query lowercase_query : List Char) (query_chars : CharBag) (smart_case : Bool)
    (max_results : ℕ) (cancel_flag : Bool) (snapshots : List Snapshot)
    (segment_start segment_end : ℕ) : SegState :=
  (worker_slices include_ignored segment_start segment_end snapshots 0).foldl
    (fun st sc =>
      match_single_tree_paths sc.1 include_root_name sc.2 query lowercase_query
        query_chars smart_case max_results cancel_flag st)
    ⟨[], 0⟩

/-- `path_count`: the sum of the snapshots' (visible) file counts. -/
def total_path_count (include_ignored : Bool) (snapshots : List Snapshot) : ℕ :=
  (snapshots.map
    (fun s => if include_ignored then s.file_count else s.visible_file_count)).sum

/-- The flattened worker heaps of a `match_paths` call, before the final sort
(`segment_results.into_iter().flatten()`). -/
def match_paths_merged (snapshots : List Snapshot) (query_str : List Char)
    (include_root_name include_ignored smart_case : Bool) (max_results : ℕ)
    (cancel_flag : Bool) (cpus : ℕ) : List PathMatch :=
  let lowercase_query := query_str.map toAsciiLower
  let query := query_str
  let query_chars := CharBag.ofChars lowercase_query
  let path_count := total_path_count include_ignored snapshots
  let segment_size := (path_count + cpus - 1) / cpus
  ((List.range cpus).map (fun segment_idx =>
      (run_worker include_root_name include_ignored query lowercase_query query_chars
          smart_case max_results cancel_flag snapshots
          (segment_idx * segment_size) (segment_idx * segment_size + segment_size)).results)).flatten

/-- `match_paths`: partition into `cpus` segments, run the workers, merge, sort by
score descending (`sort_unstable_by` modelled by `mergeSort`), truncate. -/
def match_paths (snapshots : List Snapshot) (query_str : List Char)
    (include_root_name include_ignored smart_case : Bool) (max_results : ℕ)
    (cancel_flag : Bool) (cpus : ℕ) : List PathMatch :=
  ((match_paths_merged snapshots query_str include_root_name include_ignored smart_case
      max_results cancel_flag cpus).mergeSort
    (fun a b => decide (b.score ≤ a.score))).take max_results

/-- The `char_score` determination exactly as the spec states it (claim C6):
1.0 at `j = p`; else 0.9 after `'/'`; else 0.8 after `'-'`, `'_'`, `' '` or a
digit; else 0.8 at a lower→upper camel boundary; else 0.7 after `'.'`; else
`BASE_DISTANCE_PENALTY = 0.6` at query index 0; else
`max(0.2, 0.6 − (j − p − 1) · 0.05)`. -/
def spec_char_score (last curr : Char) (query_idx j path_idx : ℕ) : ℚ :=
  if j = path_idx then 1
  else if last = '/' then 9/10
  else if last = '-' ∨ last = '_' ∨ last = ' ' ∨ last.isDigit then 8/10
  else if last.isLower ∧ curr.isUpper then 8/10
  else if last = '.' then 7/10
  else if query_idx = 0 then 6/10
  else max (2/10) (6/10 - ((j - path_idx - 1 : ℕ) : ℚ) * (5/100))

/-- The concatenated candidate lists of all snapshots, each candidate paired with
its snapshot; global file index `i` refers to position `i` in this list. -/
def global_candidates (include_ignored : Bool) (snapshots : List Snapshot) :
    List (Snapshot × MatchCandidate) :=
  (snapshots.map (fun s => (tree_files include_ignored s).map (fun c => (s, c)))).flatten

/-- The candidates one worker scans, in scan order, each paired with its
snapshot: the flattened `worker_slices`. -/
def worker_scan (include_ignored : Bool) (segment_start segment_end : ℕ)
    (snapshots : List Snapshot) (tree_start : ℕ) : List (Snapshot × MatchCandidate) :=
  ((worker_slices include_ignored segment_start segment_end snapshots tree_start).map
    (fun sc => sc.2.map (fun c => (sc.1, c)))).flatten

/-- Loop accumulator of the memoization-free reference recursion (claim C5 /
spec §8.7): the scorer state without the scratch matrices. -/
structure LoopAccNM where
  score : ℚ
  last_slash : ℕ
  broke : Bool

/-- One column iteration of the memoization-free reference recursion: identical
to `score_step` except that no matrices are read or written. -/
def score_step_nomemo (ctx : ScoreCtx) (recur : ℕ → ℚ → ℚ)
    (query_idx path_idx : ℕ) (cur_score : ℚ) (acc : LoopAccNM) (j : ℕ) : LoopAccNM :=
  if acc.broke then acc
  else
    let path_char :=
      if j < ctx.pfx.length then ctx.lowercase_pfx.getD j ' '
      else ctx.path_cased.getD (j - ctx.pfx.length) ' '
    let is_path_sep := path_char = '/' ∨ path_char = '\\'
    let ls := if query_idx = 0 ∧ is_path_sep then j else acc.last_slash
    let query_char := ctx.query_cased.getD query_idx ' '
    if query_char = path_char ∨ ((is_path_sep ∧ query_char = '_') ∨ query_char = '\\') then
      let curr :=
        if j < ctx.pfx.length then ctx.pfx.getD j ' '
        else ctx.path.getD (j - ctx.pfx.length) ' '
      let last :=
        if j - 1 < ctx.pfx.length then ctx.pfx.getD (j - 1) ' '
        else ctx.path.getD (j - 1 - ctx.pfx.length) ' '
      let cs := char_score_of last curr query_idx j path_idx
      let char_score :=
        if (ctx.smart_case ∨ curr = '/') ∧ ctx.query.getD query_idx ' ' ≠ curr then
          cs * (1/1000)
        else cs
      let multiplier :=
        if query_idx = 0 then char_score / ((ctx.path_len - ls : ℕ) : ℚ) else char_score
      let next_score := if 0 < ctx.min_score then cur_score * multiplier else 1
      if 0 < ctx.min_score ∧ cur_score * multiplier < ctx.min_score then
        { acc with
          score := if acc.score = 0 then SENTINEL_SCORE else acc.score
          last_slash := ls }
      else
        let new_score := recur (j + 1) next_score * multiplier
        if acc.score < new_score then
          { score := new_score
            last_slash := ls
            broke := if new_score = 1 then true else false }
        else { acc with last_slash := ls }
    else { acc with last_slash := ls }

/-- The scorer recursion with memoization disabled (spec §8.7's reference for
claim C5): the same recursion as `recursive_score_match`, with the memo read,
the memo write and the best-position write removed. -/
def recursive_score_match_nomemo (ctx : ScoreCtx) : ℕ → ℕ → ℕ → ℚ → ℚ
  | fuel, query_idx, path_idx, cur_score =>
    if query_idx = ctx.query.length then 1
    else
      match fuel with
      | 0 => 0
      | fuel' + 1 =>
        let limit := ctx.last_positions.getD query_idx 0
        ((List.range' path_idx (limit + 1 - path_idx)).foldl
          (score_step_nomemo ctx
            (fun p c => recursive_score_match_nomemo ctx fuel' (query_idx + 1) p c)
            query_idx path_idx cur_score)
          ⟨0, 0, false⟩).score

/-- Coherence of the memo table: every populated `score_matrix` cell of a
subproblem `(q, p)` (with `p` in the range the recursion can visit) holds the
value the memoization-free recursion computes for that subproblem. -/
def score_matrix_coherent (ctx : ScoreCtx) (mats : ScoreMats) : Prop :=
  ∀ q p v, q < ctx.query.length →
    ((q = 0 ∧ p = 0) ∨ (1 ≤ p ∧ p ≤ ctx.path_len)) →
    mats.score_matrix.getD (q * ctx.path_len + p) none = some v →
    v = recursive_score_match_nomemo ctx (ctx.query.length - q) q p 0

/-- Projection of the memoized loop accumulator onto the memoization-free one. -/
def LoopAcc.toNM (acc : LoopAcc) : LoopAccNM := ⟨acc.score, acc.last_slash, acc.broke⟩

/-- The result `process_candidate` computes for one candidate when the pruning
floor is `0`: the bag prefilter, the last-position prefilter, and the scored
`PathMatch` when its score is positive (claim C4's per-candidate outcome,
independent of every other candidate). -/
def candidate_match (include_root_name : Bool) (query lowercase_query : List Char)
    (query_chars : CharBag) (smart_case : Bool) (sc : Snapshot × MatchCandidate) :
    Option PathMatch :=
  if ¬ sc.2.char_bag.is_superset query_chars then none
  else
    let pfx := if include_root_name then sc.1.root_name else []
    let lowercase_pfx := pfx.map toAsciiLower
    let path_chars := sc.2.path
    let lowercase_path_chars := sc.2.path.map toAsciiLower
    match find_last_positions lowercase_pfx lowercase_path_chars lowercase_query with
    | none => none
    | some last_positions =>
      let matrix_len := query.length * (path_chars.length + pfx.length)
      let mats : ScoreMats := ⟨List.replicate matrix_len none, List.replicate matrix_len 0⟩
      let ctx : ScoreCtx :=
        ⟨query, lowercase_query, path_chars, lowercase_path_chars, pfx, lowercase_pfx,
          smart_case, last_positions, 0⟩
      let r := score_match ctx mats
      if 0 < r.1 then some (PathMatch.mk r.1 r.2.2 sc.1.id sc.2.path) else none

/-- One step of a worker’s scan over snapshot-tagged candidates: the bag
prefilter of `match_single_tree_paths` followed by `process_candidate`. -/
def scan_step (include_root_name : Bool) (query lowercase_query : List Char)
    (query_chars : CharBag) (smart_case : Bool) (max_results : ℕ)
    (st : SegState) (sc : Snapshot × MatchCandidate) : SegState :=
  if ¬ sc.2.char_bag.is_superset query_chars then st
  else process_candidate sc.1 include_root_name query lowercase_query smart_case
    max_results st sc.2

/-! ## Heap-content invariants -/

theorem tree_files_length (include_ignored : Bool) (s : Snapshot) :
    (tree_files include_ignored s).length =
      if include_ignored then s.file_count else s.visible_file_count := by
  cases include_ignored <;> rfl


/-- `process_candidate` either leaves the heap unchanged or pushes exactly one
result, which has a strictly positive score. -/
theorem process_candidate_results (snapshot : Snapshot) (include_root_name : Bool)
    (query lowercase_query : List Char) (smart_case : Bool) (max_results : ℕ)
    (st : SegState) (c : MatchCandidate) :
    (process_candidate snapshot include_root_name query lowercase_query smart_case
        max_results st c).results = st.results ∨
    ∃ pm : PathMatch, 0 < pm.score ∧
      (process_candidate snapshot include_root_name query lowercase_query smart_case
          max_results st c).results = pm :: st.results := by
  simp only [process_candidate]
  repeat' split
  all_goals
    first
      | exact Or.inl rfl
      | (refine Or.inr ⟨_, ?_, rfl⟩; assumption)

theorem match_single_tree_paths_results_append (snapshot : Snapshot)
    (include_root_name : Bool) (path_entries : List MatchCandidate)
    (query lowercase_query : List Char) (query_chars : CharBag) (smart_case : Bool)
    (max_results : ℕ) (cancel_flag : Bool) (st : SegState) :
    ∃ pre : List PathMatch,
      (match_single_tree_paths snapshot include_root_name path_entries query
          lowercase_query query_chars smart_case max_results cancel_flag st).results =
        pre ++ st.results ∧ ∀ m ∈ pre, 0 < m.score := by
  induction path_entries generalizing st with
  | nil => exact ⟨[], rfl, by simp⟩
  | cons c rest ih =>
    rw [match_single_tree_paths]
    split
    · exact ih st
    · split
      · exact ⟨[], rfl, by simp⟩
      · rcases process_candidate_results snapshot include_root_name query lowercase_query
            smart_case max_results st c with h | ⟨pm, hpm, h⟩
        · rcases ih (process_candidate snapshot include_root_name query lowercase_query
              smart_case max_results st c) with ⟨pre, hpre, hpos⟩
          exact ⟨pre, by rw [hpre, h], hpos⟩
        · rcases ih (process_candidate snapshot include_root_name query lowercase_query
              smart_case max_results st c) with ⟨pre, hpre, hpos⟩
          refine ⟨pre ++ [pm], by rw [hpre, h]; simp, ?_⟩
          intro m hm
          rcases List.mem_append.1 hm with hm | hm
          · exact hpos m hm
          · simp only [List.mem_singleton] at hm; exact hm ▸ hpm

/-- Every result in a worker's heap has a strictly positive score. -/
theorem run_worker_results_positive (include_root_name include_ignored : Bool)
    (query lowercase_query : List Char) (query_chars : CharBag) (smart_case : Bool)
    (max_results : ℕ) (cancel_flag : Bool) (snapshots : List Snapshot)
    (segment_start segment_end : ℕ) :
    ∀ m ∈ (run_worker include_root_name include_ignored query lowercase_query
        query_chars smart_case max_results cancel_flag snapshots
        segment_start segment_end).results, 0 < m.score := by
  rw [run_worker]
  generalize worker_slices include_ignored segment_start segment_end snapshots 0 = slices
  have h : ∀ (st : SegState), (∀ m ∈ st.results, 0 < m.score) →
      ∀ m ∈ (slices.foldl (fun st sc =>
        match_single_tree_paths sc.1 include_root_name sc.2 query lowercase_query
          query_chars smart_case max_results cancel_flag st) st).results, 0 < m.score := by
    induction slices with
    | nil => intro st hst; exact hst
    | cons sc rest ih =>
      intro st hst
      simp only [List.foldl_cons]
      refine ih _ ?_
      rcases match_single_tree_paths_results_append sc.1 include_root_name sc.2 query
          lowercase_query query_chars smart_case max_results cancel_flag st with
        ⟨pre, hpre, hpos⟩
      rw [hpre]
      intro m hm
      rcases List.mem_append.1 hm with hm | hm
      · exact hpos m hm
      · exact hst m hm
  exact h ⟨[], 0⟩ (by simp)

/-- Every result in the flattened pre-sort merge has a strictly positive score. -/
theorem match_paths_merged_positive (snapshots : List Snapshot) (query_str : List Char)
    (include_root_name include_ignored smart_case : Bool) (max_results : ℕ)
    (cancel_flag : Bool) (cpus : ℕ) :
    ∀ m ∈ match_paths_merged snapshots query_str include_root_name include_ignored
        smart_case max_results cancel_flag cpus, 0 < m.score := by
  intro m hm
  rw [match_paths_merged] at hm
  simp only [List.mem_flatten, List.mem_map] at hm
  rcases hm with ⟨l, ⟨w, _, hl⟩, hm⟩
  exact run_worker_results_positive _ _ _ _ _ _ _ _ _ _ _ m (hl ▸ hm)

/-- The merge comparator `b.score.partial_cmp(&a.score)` is a total comparison on
the scores occurring in the merged list. -/
theorem merged_scores_trichotomy (snapshots : List Snapshot) (query_str : List Char)
    (include_root_name include_ignored smart_case : Bool) (max_results : ℕ)
    (cancel_flag : Bool) (cpus : ℕ) :
    ∀ m ∈ match_paths_merged snapshots query_str include_root_name include_ignored
        smart_case max_results cancel_flag cpus,
      ∀ m' ∈ match_paths_merged snapshots query_str include_root_name include_ignored
          smart_case max_results cancel_flag cpus,
        m.score < m'.score ∨ m.score = m'.score ∨ m'.score < m.score :=
  fun m _ m' _ => lt_trichotomy m.score m'.score

/-- C10: the final merge's sort comparator never panics: every `PathMatch` in any
worker heap was pushed only after its score compared strictly greater than `0.0`,
so every score in the merged list is positive — in particular (in the exact
rational model of the float scores, where `NaN` does not exist and a score that
compared `> 0.0` is an ordinary positive value) `partial_cmp` is total on all
score pairs of the merged list. -/
theorem c10_merge_comparator_never_panics (snapshots : List Snapshot)
    (query_str : List Char) (include_root_name include_ignored smart_case : Bool)
    (max_results : ℕ) (cancel_flag : Bool) (cpus : ℕ) :
    (∀ m ∈ match_paths_merged snapshots query_str include_root_name include_ignored
        smart_case max_results cancel_flag cpus, 0 < m.score) ∧
    (∀ m ∈ match_paths_merged snapshots query_str include_root_name include_ignored
        smart_case max_results cancel_flag cpus,
      ∀ m' ∈ match_paths_merged snapshots query_str include_root_name include_ignored
          smart_case max_results cancel_flag cpus,
        m.score < m'.score ∨ m.score = m'.score ∨ m'.score < m.score) :=
  ⟨match_paths_merged_positive snapshots query_str include_root_name include_ignored
      smart_case max_results cancel_flag cpus,
    merged_scores_trichotomy snapshots query_str include_root_name include_ignored
      smart_case max_results cancel_flag cpus⟩

/-- C1: `match_paths` returns at most `max_results` results, sorted by score in
descending order, and every returned score is strictly positive (hence, in the
exact rational model of the finite-float arithmetic, finite). -/
theorem c1_bounded_sorted_positive (snapshots : List Snapshot) (query_str : List Char)
    (include_root_name include_ignored smart_case : Bool) (max_results : ℕ)
    (cancel_flag : Bool) (cpus : ℕ) :
    (match_paths snapshots query_str include_root_name include_ignored smart_case
        max_results cancel_flag cpus).length ≤ max_results ∧
    List.Pairwise (fun a b : PathMatch => b.score ≤ a.score)
      (match_paths snapshots query_str include_root_name include_ignored smart_case
        max_results cancel_flag cpus) ∧
    ∀ m ∈ match_paths snapshots query_str include_root_name include_ignored smart_case
        max_results cancel_flag cpus, 0 < m.score := by
  refine ⟨?_, ?_, ?_⟩
  · rw [match_paths]
    exact List.length_take_le _ _
  · rw [match_paths]
    have hs := @List.sorted_mergeSort PathMatch
        (fun a b : PathMatch => decide (b.score ≤ a.score))
        (fun a b c hab hbc => by
          simp only [decide_eq_true_eq] at *
          exact le_trans hbc hab)
        (fun a b => by
          simp only [Bool.or_eq_true, decide_eq_true_eq]
          exact le_total b.score a.score)
        (match_paths_merged snapshots query_str include_root_name include_ignored
          smart_case max_results cancel_flag cpus)
    have ht := List.Pairwise.sublist (List.take_sublist max_results _) hs
    exact ht.imp (fun h => by simpa using h)
  · intro m hm
    rw [match_paths] at hm
    have hm1 := List.mem_of_mem_take hm
    have hm2 := (List.mergeSort_perm (match_paths_merged snapshots query_str
        include_root_name include_ignored smart_case max_results cancel_flag cpus)
        (fun a b => decide (b.score ≤ a.score))).subset hm1
    exact match_paths_merged_positive snapshots query_str include_root_name
      include_ignored smart_case max_results cancel_flag cpus m hm2

/-! ## C6: the char_score determination -/

/-- C6: for every accepted column `j ≥ path_idx`, the `char_score` computed by the
scorer equals the cascade stated in the spec. -/
theorem c6_char_score_determination (last curr : Char) (query_idx j path_idx : ℕ)
    (h : path_idx ≤ j) :
    char_score_of last curr query_idx j path_idx =
      spec_char_score last curr query_idx j path_idx := by
  unfold char_score_of spec_char_score char_score_cascade
  unfold BASE_DISTANCE_PENALTY ADDITIONAL_DISTANCE_PENALTY MIN_DISTANCE_PENALTY
  rcases Nat.lt_or_ge path_idx j with hlt | hge
  · rw [if_pos hlt, if_neg (Nat.ne_of_gt hlt)]
  · have heq : j = path_idx := Nat.le_antisymm hge h
    rw [if_neg (by omega), if_pos heq]

/-- Witness for C6 at a concrete accepted column. -/
theorem c6_char_score_determination_witness :
    1 ≤ 3 ∧ char_score_of 'x' 'Y' 1 3 1 = spec_char_score 'x' 'Y' 1 3 1 :=
  ⟨by decide, c6_char_score_determination 'x' 'Y' 1 3 1 (by decide)⟩

/-! ## C7: find_last_positions -/

/-- C7: `find_last_positions` on the three pinned scenarios: with
`prefix = [a,b,c]`, `path = [b,d,e,f]` it rejects `[d,c]` and accepts `[c,d]`
with `last_positions = [2,4]`; with `prefix = [z,e,d,/]`, `path = [z,e,d,/,f]`
it accepts `[z,/,z,f]` with `last_positions = [0,3,4,8]`. -/
theorem c7_find_last_positions_scenarios :
    find_last_positions ['a','b','c'] ['b','d','e','f'] ['d','c'] = none ∧
    find_last_positions ['a','b','c'] ['b','d','e','f'] ['c','d'] = some [2, 4] ∧
    find_last_positions ['z','e','d','/'] ['z','e','d','/','f'] ['z','/','z','f'] =
      some [0, 3, 4, 8] := by
  refine ⟨by decide, by decide, by decide⟩

/-! ## C8: empty query -/

theorem process_candidate_nil_query (snapshot : Snapshot) (include_root_name : Bool)
    (smart_case : Bool) (max_results : ℕ) (st : SegState) (c : MatchCandidate) :
    process_candidate snapshot include_root_name [] [] smart_case max_results st c = st := by
  simp [process_candidate, find_last_positions, flp_go, score_match,
    recursive_score_match]

theorem match_single_tree_paths_nil_query (snapshot : Snapshot)
    (include_root_name : Bool) (path_entries : List MatchCandidate)
    (query_chars : CharBag) (smart_case : Bool) (max_results : ℕ)
    (cancel_flag : Bool) (st : SegState) :
    match_single_tree_paths snapshot include_root_name path_entries [] []
      query_chars smart_case max_results cancel_flag st = st := by
  induction path_entries generalizing st with
  | nil => rw [match_single_tree_paths]
  | cons c rest ih =>
    rw [match_single_tree_paths]
    split
    · exact ih st
    · split
      · rfl
      · rw [process_candidate_nil_query]
        exact ih st

theorem run_worker_nil_query (include_root_name include_ignored : Bool)
    (query_chars : CharBag) (smart_case : Bool) (max_results : ℕ)
    (cancel_flag : Bool) (snapshots : List Snapshot) (segment_start segment_end : ℕ) :
    run_worker include_root_name include_ignored [] [] query_chars smart_case
      max_results cancel_flag snapshots segment_start segment_end = ⟨[], 0⟩ := by
  rw [run_worker]
  generalize worker_slices include_ignored segment_start segment_end snapshots 0 = slices
  induction slices with
  | nil => rfl
  | cons sc rest ih =>
    rw [List.foldl_cons, match_single_tree_paths_nil_query]
    exact ih

/-- C8: an empty query yields an empty result list, for any snapshots, flags,
`max_results` and worker count. -/
theorem c8_empty_query_empty_result (snapshots : List Snapshot)
    (include_root_name include_ignored smart_case : Bool) (max_results : ℕ)
    (cancel_flag : Bool) (cpus : ℕ) :
    match_paths snapshots [] include_root_name include_ignored smart_case
      max_results cancel_flag cpus = [] := by
  have hm : match_paths_merged snapshots [] include_root_name include_ignored smart_case
      max_results cancel_flag cpus = [] := by
    rw [match_paths_merged]
    simp [run_worker_nil_query]
  rw [match_paths, hm]
  simp

/-! ## C3: the per-worker collector -/

/-- C3 (amended): the collector pushes each scored match and never pops: a push
appends the new result to the heap (so the heap size can exceed `max_results`),
and `min_score` is set to the heap's current minimum score exactly when a push
makes the heap size equal `max_results`, and is unchanged otherwise. -/
theorem c3_collector_push_no_pop (snapshot : Snapshot) (include_root_name : Bool)
    (query lowercase_query : List Char) (smart_case : Bool) (max_results : ℕ)
    (st : SegState) (c : MatchCandidate) :
    (process_candidate snapshot include_root_name query lowercase_query smart_case
        max_results st c = st) ∨
    ∃ pm : PathMatch,
      (process_candidate snapshot include_root_name query lowercase_query smart_case
          max_results st c).results = pm :: st.results ∧ 0 < pm.score ∧
      ((pm :: st.results).length = max_results →
        (process_candidate snapshot include_root_name query lowercase_query smart_case
            max_results st c).min_score = heap_min_score (pm :: st.results)) ∧
      ((pm :: st.results).length ≠ max_results →
        (process_candidate snapshot include_root_name query lowercase_query smart_case
            max_results st c).min_score = st.min_score) := by
  simp only [process_candidate]
  repeat' split
  all_goals
    first
      | exact Or.inl rfl
      | (refine Or.inr ⟨_, rfl, ?_, ?_, ?_⟩
         · assumption
         · intro h
           first
             | rfl
             | exact absurd h (by assumption)
         · intro h
           first
             | rfl
             | exact absurd (by assumption) h)

/-- C3 counterexample: with `max_results = 1`, after two scoring candidates the
worker heap holds 2 > `max_results` results — the code never pops the minimum
(`match_single_tree_paths` pushes unconditionally and only reads the minimum to
update `min_score` when the size equals `max_results`). -/
theorem c3_counterexample_heap_exceeds_max_results :
    1 < (match_single_tree_paths ⟨0, [], [], []⟩ false
        [⟨['a'], ['a']⟩, ⟨['a','b'], ['a','b']⟩] ['a'] ['a'] ['a'] false 1 false
        ⟨[], 0⟩).results.length := by
  have ha : toAsciiLower 'a' = 'a' := by decide
  have hb : toAsciiLower 'b' = 'b' := by decide
  have hflp1 : find_last_positions [] ['a'] ['a'] = some [0] := by decide
  have hflp2 : find_last_positions [] ['a', 'b'] ['a'] = some [0] := by decide
  norm_num [match_single_tree_paths, process_candidate, score_match,
    recursive_score_match, score_step, char_score_of, char_score_cascade,
    ScoreCtx.path_len, build_positions, hflp1, hflp2,
    heap_min_score, CharBag.is_superset, SENTINEL_SCORE, List.range', ha, hb]

/-! ## C9: the partitioner -/

/-- A worker whose segment is `[a, b)` scans exactly the global candidates with
index in `[a, b)` (relative to the part of the global list starting at offset
`tree_start`). -/
theorem worker_scan_eq (include_ignored : Bool) (a b : ℕ) :
    ∀ (snapshots : List Snapshot) (t : ℕ),
      worker_scan include_ignored a b snapshots t =
        ((global_candidates include_ignored snapshots).drop (a - t)).take
          ((b - t) - (a - t)) := by
  intro snapshots
  induction snapshots with
  | nil =>
    intro t
    simp [worker_scan, worker_slices, global_candidates]
  | cons s rest ih =>
    intro t
    obtain ⟨n, hn⟩ : ∃ n, (if include_ignored then s.file_count
        else s.visible_file_count) = n := ⟨_, rfl⟩
    have hfn : (tree_files include_ignored s).length = n := by
      rw [tree_files_length, hn]
    have hgc : global_candidates include_ignored (s :: rest) =
        (tree_files include_ignored s).map (fun c => (s, c)) ++
          global_candidates include_ignored rest := by
      simp [global_candidates]
    have hlen : ((tree_files include_ignored s).map (fun c => (s, c))).length = n := by
      rw [List.length_map, hfn]
    have hws : ∀ t' : ℕ, ((worker_slices include_ignored a b rest t').map
        (fun sc => sc.2.map (fun c => (sc.1, c)))).flatten =
        worker_scan include_ignored a b rest t' := fun _ => rfl
    rw [worker_scan, worker_slices, hgc, hn]
    rw [List.drop_append_eq_append_drop, List.take_append_eq_append_take, hlen]
    by_cases hbreak : b ≤ t + n
    · rw [if_pos hbreak]
      by_cases hover : t < b ∧ a < t + n
      · rw [if_pos hover]
        simp only [List.map_cons, List.map_nil, List.flatten_cons, List.flatten_nil,
          List.append_nil]
        have h2 : ((global_candidates include_ignored rest).drop (a - t - n)).take
            ((b - t - (a - t)) - (((tree_files include_ignored s).map
              (fun c => (s, c))).drop (a - t)).length) = [] := by
          have hz : (b - t - (a - t)) - (((tree_files include_ignored s).map
              (fun c => (s, c))).drop (a - t)).length = 0 := by
            rw [List.length_drop, hlen]
            omega
          rw [hz, List.take_zero]
        rw [h2, List.append_nil, ← List.map_drop, ← List.map_take]
        have e1 : min (t + n) b - t - (max t a - t) = (b - t) - (a - t) := by omega
        have e2 : max t a - t = a - t := by omega
        rw [e1, e2]
      · rw [if_neg hover]
        simp only [List.map_nil, List.flatten_nil]
        have hk : (b - t) - (a - t) = 0 := by omega
        rw [hk]
        simp
    · rw [if_neg hbreak]
      by_cases hover : t < b ∧ a < t + n
      · rw [if_pos hover]
        simp only [List.map_cons, List.map_append, List.map_nil, List.flatten_cons,
          List.flatten_append, List.flatten_nil, List.nil_append, List.append_nil]
        rw [hws (t + n), ih (t + n)]
        have hslice : ((tree_files include_ignored s).drop (max t a - t)).take
            (min (t + n) b - t - (max t a - t)) =
            (tree_files include_ignored s).drop (a - t) := by
          have hmin : min (t + n) b - t = n := by omega
          have hmax : max t a - t = a - t := by omega
          rw [hmin, hmax]
          apply List.take_of_length_le
          rw [List.length_drop, hfn]
        rw [hslice]
        have htake : (((tree_files include_ignored s).map (fun c => (s, c))).drop
            (a - t)).take ((b - t) - (a - t)) =
            ((tree_files include_ignored s).map (fun c => (s, c))).drop (a - t) := by
          apply List.take_of_length_le
          rw [List.length_drop, hlen]
          omega
        rw [htake, ← List.map_drop]
        have hlen2 : (((tree_files include_ignored s).drop (a - t)).map
            (fun c => (s, c))).length = n - (a - t) := by
          rw [List.length_map, List.length_drop, hfn]
        rw [hlen2]
        have e3 : (b - t - (a - t)) - (n - (a - t)) = (b - (t + n)) - (a - (t + n)) := by
          omega
        have e4 : a - t - n = a - (t + n) := by omega
        rw [e3, e4]
      · rw [if_neg hover]
        have h2 : (((tree_files include_ignored s).map (fun c => (s, c))).drop
            (a - t)).take ((b - t) - (a - t)) = [] := by
          have hd : ((tree_files include_ignored s).map (fun c => (s, c))).drop (a - t)
              = [] := by
            apply List.drop_eq_nil_of_le
            rw [hlen]
            omega
          rw [hd, List.take_nil]
        rw [h2, List.nil_append]
        simp only [List.map_nil, List.nil_append]
        rw [hws (t + n), ih (t + n)]
        have hlen3 : (((tree_files include_ignored s).map (fun c => (s, c))).drop
            (a - t)).length = 0 := by
          rw [List.length_drop, hlen]
          omega
        rw [hlen3]
        have e3 : (b - t - (a - t)) - 0 = (b - (t + n)) - (a - (t + n)) := by omega
        have e4 : a - t - n = a - (t + n) := by omega
        rw [e3, e4]

/-- Consecutive segments of size `s` tile the global list. -/
theorem flatten_segments_take {α : Type} (l : List α) (s : ℕ) :
    ∀ W : ℕ,
      ((List.range W).map (fun w => (l.drop (w * s)).take s)).flatten = l.take (W * s) := by
  intro W
  induction W with
  | zero => simp
  | succ W ih =>
    rw [List.range_succ, List.map_append, List.flatten_append]
    simp only [List.map_cons, List.map_nil, List.flatten_cons, List.flatten_nil,
      List.append_nil]
    rw [ih, Nat.succ_mul, List.take_add]

/-- C9: with `N = total_path_count` and `W = cpus > 0`, `match_paths`' segment
size `(N + W - 1) / W` is the ceiling `⌈N / W⌉` (with its Galois
characterisation `⌈N/W⌉ ≤ k ↔ N ≤ W·k`), and worker `w` scans exactly the
global candidate indices in `[w·segment_size, (w+1)·segment_size)` intersected
with the snapshots' ranges (the code's early stop once a snapshot's end reaches
the segment end included). -/
theorem c9_partitioner_segments (include_ignored : Bool) (snapshots : List Snapshot)
    (cpus : ℕ) (h : 0 < cpus) :
    ((total_path_count include_ignored snapshots + cpus - 1) / cpus =
      total_path_count include_ignored snapshots ⌈/⌉ cpus) ∧
    (∀ k : ℕ, (total_path_count include_ignored snapshots + cpus - 1) / cpus ≤ k ↔
      total_path_count include_ignored snapshots ≤ cpus * k) ∧
    (∀ w : ℕ, worker_scan include_ignored
        (w * ((total_path_count include_ignored snapshots + cpus - 1) / cpus))
        (w * ((total_path_count include_ignored snapshots + cpus - 1) / cpus) +
          (total_path_count include_ignored snapshots + cpus - 1) / cpus)
        snapshots 0 =
      ((global_candidates include_ignored snapshots).drop
        (w * ((total_path_count include_ignored snapshots + cpus - 1) / cpus))).take
        ((total_path_count include_ignored snapshots + cpus - 1) / cpus)) := by
  have hceil : (total_path_count include_ignored snapshots + cpus - 1) / cpus =
      total_path_count include_ignored snapshots ⌈/⌉ cpus :=
    (Nat.ceilDiv_eq_add_pred_div _ _).symm
  refine ⟨hceil, ?_, ?_⟩
  · intro k
    rw [hceil]
    have := ceilDiv_le_iff_le_smul (α := ℕ) (β := ℕ) h
      (b := total_path_count include_ignored snapshots) (c := k)
    rw [smul_eq_mul] at this
    exact this
  · intro w
    rw [worker_scan_eq]
    rw [Nat.sub_zero, Nat.sub_zero]
    have hq : w * ((total_path_count include_ignored snapshots + cpus - 1) / cpus) +
        (total_path_count include_ignored snapshots + cpus - 1) / cpus -
        w * ((total_path_count include_ignored snapshots + cpus - 1) / cpus) =
        (total_path_count include_ignored snapshots + cpus - 1) / cpus := by omega
    rw [hq]

/-- Witness for C9 at `cpus = 1`. -/
theorem c9_partitioner_segments_witness :
    0 < 1 ∧
      ((total_path_count false [] + 1 - 1) / 1 = total_path_count false [] ⌈/⌉ 1) :=
  ⟨by decide, (c9_partitioner_segments false [] 1 (by decide)).1⟩


/-! ## C5: memoization consistency -/

/-- C5 counterexample: for the candidate path `axabxc`, query `abc`, no prefix,
`smart_case` off and pruning floor `min_score = 7/40` (= 0.175), the score
computed by `score_match` through the memoization table differs from the score
the same recursion computes with memoization disabled: the first visit to the
subproblem `(query_idx = 2, path_idx = 4)` is fully pruned and memoizes the
`1e-18` sentinel, which a later, better-scoring chain then reads back. -/
theorem c5_counterexample_stale_memo :
    find_last_positions [] ['a','x','a','b','x','c'] ['a','b','c'] = some [2, 3, 5] ∧
    (score_match
        ⟨['a','b','c'], ['a','b','c'], ['a','x','a','b','x','c'],
          ['a','x','a','b','x','c'], [], [], false, [2, 3, 5], 7/40⟩
        ⟨List.replicate 18 none, List.replicate 18 0⟩).1 ≠
      recursive_score_match_nomemo
        ⟨['a','b','c'], ['a','b','c'], ['a','x','a','b','x','c'],
          ['a','x','a','b','x','c'], [], [], false, [2, 3, 5], 7/40⟩
        3 0 0 3 * 3 := by
  refine ⟨by decide, ?_⟩
  norm_num +decide [score_match, recursive_score_match, recursive_score_match_nomemo,
    score_step, score_step_nomemo, char_score_of, char_score_cascade,
    ScoreCtx.path_len, build_positions, SENTINEL_SCORE, BASE_DISTANCE_PENALTY,
    ADDITIONAL_DISTANCE_PENALTY, MIN_DISTANCE_PENALTY, List.range',
    List.replicate, List.getD_cons_zero, List.getD_cons_succ]


/-! ## C4: worker-count independence -/

set_option maxHeartbeats 4000000 in
/-- C4 counterexample: with candidates `abc`, `a-bxxxc`, `axabxc` in one
snapshot, query `abc` and `max_results = 2`, one worker returns the (path,
score) multiset `{(abc, 1), (a-bxxxc, 6/35)}` while three workers return
`{(abc, 1), (axabxc, 9/50)}`, although no equal-score tie exists anywhere:
with one worker the heap reaches capacity before `axabxc` is scored, and the
`min_score` pruning plus the stale `1e-18` memo sentinel lower that candidate's
computed score from `9/50` to `3·10⁻¹⁹`, dropping it from the top 2. -/
theorem c4_counterexample_worker_count :
    ((match_paths [⟨0, [], [⟨['a','b','c'], ['a','b','c']⟩,
          ⟨['a','-','b','x','x','x','c'], ['a','-','b','x','x','x','c']⟩,
          ⟨['a','x','a','b','x','c'], ['a','x','a','b','x','c']⟩], []⟩]
        ['a','b','c'] false true false 2 false 1).map (fun m => (m.path, m.score)) =
      [(['a','b','c'], 1), (['a','-','b','x','x','x','c'], 6/35)]) ∧
    ((match_paths [⟨0, [], [⟨['a','b','c'], ['a','b','c']⟩,
          ⟨['a','-','b','x','x','x','c'], ['a','-','b','x','x','x','c']⟩,
          ⟨['a','x','a','b','x','c'], ['a','x','a','b','x','c']⟩], []⟩]
        ['a','b','c'] false true false 2 false 3).map (fun m => (m.path, m.score)) =
      [(['a','b','c'], 1), (['a','x','a','b','x','c'], 9/50)]) ∧
    ¬ ((match_paths [⟨0, [], [⟨['a','b','c'], ['a','b','c']⟩,
          ⟨['a','-','b','x','x','x','c'], ['a','-','b','x','x','x','c']⟩,
          ⟨['a','x','a','b','x','c'], ['a','x','a','b','x','c']⟩], []⟩]
        ['a','b','c'] false true false 2 false 1).map (fun m => (m.path, m.score))).Perm
      ((match_paths [⟨0, [], [⟨['a','b','c'], ['a','b','c']⟩,
          ⟨['a','-','b','x','x','x','c'], ['a','-','b','x','x','x','c']⟩,
          ⟨['a','x','a','b','x','c'], ['a','x','a','b','x','c']⟩], []⟩]
        ['a','b','c'] false true false 2 false 3).map (fun m => (m.path, m.score))) := by
  have h1 : (match_paths [⟨0, [], [⟨['a','b','c'], ['a','b','c']⟩,
          ⟨['a','-','b','x','x','x','c'], ['a','-','b','x','x','x','c']⟩,
          ⟨['a','x','a','b','x','c'], ['a','x','a','b','x','c']⟩], []⟩]
      ['a','b','c'] false true false 2 false 1).map (fun m => (m.path, m.score)) =
      [(['a','b','c'], 1), (['a','-','b','x','x','x','c'], 6/35)] := by
    norm_num +decide [match_paths, match_paths_merged, run_worker, worker_slices,
      tree_files, total_path_count, Snapshot.file_count, Snapshot.visible_file_count,
      match_single_tree_paths, process_candidate, score_match, recursive_score_match,
      score_step, char_score_of, char_score_cascade, ScoreCtx.path_len, build_positions,
      find_last_positions, flp_go, last_idx_lt, heap_min_score, CharBag.is_superset,
      CharBag.ofChars, toAsciiLower, SENTINEL_SCORE, BASE_DISTANCE_PENALTY,
      ADDITIONAL_DISTANCE_PENALTY, MIN_DISTANCE_PENALTY, List.range',
      List.range_succ, List.range_zero, List.replicate, List.getD_cons_zero, List.getD_cons_succ,
      List.mergeSort, List.min?, min_def]
  have h3 : (match_paths [⟨0, [], [⟨['a','b','c'], ['a','b','c']⟩,
          ⟨['a','-','b','x','x','x','c'], ['a','-','b','x','x','x','c']⟩,
          ⟨['a','x','a','b','x','c'], ['a','x','a','b','x','c']⟩], []⟩]
      ['a','b','c'] false true false 2 false 3).map (fun m => (m.path, m.score)) =
      [(['a','b','c'], 1), (['a','x','a','b','x','c'], 9/50)] := by
    norm_num +decide [match_paths, match_paths_merged, run_worker, worker_slices,
      tree_files, total_path_count, Snapshot.file_count, Snapshot.visible_file_count,
      match_single_tree_paths, process_candidate, score_match, recursive_score_match,
      score_step, char_score_of, char_score_cascade, ScoreCtx.path_len, build_positions,
      find_last_positions, flp_go, last_idx_lt, heap_min_score, CharBag.is_superset,
      CharBag.ofChars, toAsciiLower, SENTINEL_SCORE, BASE_DISTANCE_PENALTY,
      ADDITIONAL_DISTANCE_PENALTY, MIN_DISTANCE_PENALTY, List.range',
      List.range_succ, List.range_zero, List.replicate, List.getD_cons_zero, List.getD_cons_succ,
      List.mergeSort, List.min?, min_def]
  refine ⟨h1, h3, ?_⟩
  rw [h1, h3]
  intro hp
  have hmem : ((['a','-','b','x','x','x','c'], (6:ℚ)/35)) ∈
      [((['a','b','c'] : List Char), (1:ℚ)), (['a','x','a','b','x','c'], 9/50)] :=
    hp.subset (by simp)
  simp only [List.mem_cons, List.mem_singleton, Prod.mk.injEq] at hmem
  rcases hmem with ⟨hl, _⟩ | ⟨hl, _⟩ | h
  · exact absurd hl (by decide)
  · exact absurd hl (by decide)
  · exact absurd h (List.not_mem_nil _)

/-! ## C5 infrastructure: the memoized recursion agrees with the
memoization-free one when `min_score = 0` -/

theorem getD_set_self {α : Type} (l : List α) (i : ℕ) (x d : α) (h : i < l.length) :
    (l.set i x).getD i d = x := by
  simp [List.getD_eq_getElem?_getD, List.getElem?_set, h]

theorem getD_set_ne {α : Type} (l : List α) {i j : ℕ} (x d : α) (h : i ≠ j) :
    (l.set i x).getD j d = l.getD j d := by
  simp [List.getD_eq_getElem?_getD, List.getElem?_set, h]

theorem getD_replicate {α : Type} (n i : ℕ) (a d : α) :
    (List.replicate n a).getD i d = if i < n then a else d := by
  simp only [List.getD_eq_getElem?_getD, List.getElem?_replicate]
  split <;> rfl

theorem foldl_congr_fn {α β : Type} {f g : β → α → β} (h : ∀ b a, f b a = g b a) :
    ∀ (l : List α) (b : β), l.foldl f b = l.foldl g b := by
  intro l
  induction l with
  | nil => intro b; rfl
  | cons a l ih =>
    intro b
    rw [List.foldl_cons, List.foldl_cons, h]
    exact ih _

/-- Unfolding of `recursive_score_match` at zero fuel. -/
theorem rsm_zero (ctx : ScoreCtx) (q p : ℕ) (cur : ℚ) (mats : ScoreMats) :
    recursive_score_match ctx 0 q p cur mats =
      if q = ctx.query.length then (1, mats) else (0, mats) := rfl

/-- Unfolding of `recursive_score_match` at positive fuel. -/
theorem rsm_succ (ctx : ScoreCtx) (fuel q p : ℕ) (cur : ℚ) (mats : ScoreMats) :
    recursive_score_match ctx (fuel + 1) q p cur mats =
      if q = ctx.query.length then (1, mats)
      else
        match mats.score_matrix.getD (q * ctx.path_len + p) none with
        | some memoized => (memoized, mats)
        | none =>
          let limit := ctx.last_positions.getD q 0
          let acc :=
            (List.range' p (limit + 1 - p)).foldl
              (score_step ctx
                (fun p' c m => recursive_score_match ctx fuel (q + 1) p' c m) q p cur)
              ⟨0, 0, 0, mats, false⟩
          let idx := q * ctx.path_len + p
          let bpm :=
            if acc.best_position ≠ 0 then
              acc.mats.best_position_matrix.set idx acc.best_position
            else acc.mats.best_position_matrix
          (acc.score, ⟨acc.mats.score_matrix.set idx (some acc.score), bpm⟩) := rfl

/-- Unfolding of the memoization-free recursion at zero fuel. -/
theorem rsmnm_zero (ctx : ScoreCtx) (q p : ℕ) (cur : ℚ) :
    recursive_score_match_nomemo ctx 0 q p cur =
      if q = ctx.query.length then 1 else 0 := by
  rw [recursive_score_match_nomemo]

/-- Unfolding of the memoization-free recursion at positive fuel. -/
theorem rsmnm_succ (ctx : ScoreCtx) (fuel q p : ℕ) (cur : ℚ) :
    recursive_score_match_nomemo ctx (fuel + 1) q p cur =
      if q = ctx.query.length then 1
      else
        ((List.range' p (ctx.last_positions.getD q 0 + 1 - p)).foldl
          (score_step_nomemo ctx
            (fun p' c => recursive_score_match_nomemo ctx fuel (q + 1) p' c) q p cur)
          ⟨0, 0, false⟩).score := rfl

/-- With `min_score = 0`, one column step of the memoization-free recursion does
not depend on `cur_score`. -/
theorem step_nomemo_cur_eq (ctx : ScoreCtx) (hmin : ctx.min_score = 0)
    (recur : ℕ → ℚ → ℚ) (query_idx path_idx : ℕ) (cur cur' : ℚ) (acc : LoopAccNM)
    (j : ℕ) :
    score_step_nomemo ctx recur query_idx path_idx cur acc j =
      score_step_nomemo ctx recur query_idx path_idx cur' acc j := by
  simp only [score_step_nomemo, hmin, lt_self_iff_false, false_and, if_false]

/-- One column step of the memoization-free recursion only uses `recur`
pointwise. -/
theorem step_nomemo_recur_congr (ctx : ScoreCtx) {recur recur' : ℕ → ℚ → ℚ}
    (h : ∀ p c, recur p c = recur' p c) (query_idx path_idx : ℕ) (cur : ℚ)
    (acc : LoopAccNM) (j : ℕ) :
    score_step_nomemo ctx recur query_idx path_idx cur acc j =
      score_step_nomemo ctx recur' query_idx path_idx cur acc j := by
  simp only [score_step_nomemo, h]

/-- With `min_score = 0` the memoization-free recursion does not depend on the
`cur_score` argument. -/
theorem rsmnm_cur_irrel (ctx : ScoreCtx) (hmin : ctx.min_score = 0) :
    ∀ (fuel q p : ℕ) (cur cur' : ℚ),
      recursive_score_match_nomemo ctx fuel q p cur =
        recursive_score_match_nomemo ctx fuel q p cur' := by
  intro fuel
  cases fuel with
  | zero => intro q p cur cur'; rw [rsmnm_zero, rsmnm_zero]
  | succ fuel =>
    intro q p cur cur'
    rw [rsmnm_succ, rsmnm_succ]
    by_cases hql : q = ctx.query.length
    · rw [if_pos hql, if_pos hql]
    · rw [if_neg hql, if_neg hql]
      rw [foldl_congr_fn (fun acc j => step_nomemo_cur_eq ctx hmin _ q p cur cur' acc j)]

/-- The memoization-free recursion is fuel-irrelevant above `query.length - q`. -/
theorem rsmnm_fuel_congr (ctx : ScoreCtx) :
    ∀ (fuel q p : ℕ) (cur : ℚ), q ≤ ctx.query.length → ctx.query.length - q ≤ fuel →
      recursive_score_match_nomemo ctx fuel q p cur =
        recursive_score_match_nomemo ctx (ctx.query.length - q) q p cur := by
  intro fuel
  induction fuel with
  | zero =>
    intro q p cur hq hf
    have h0 : ctx.query.length - q = 0 := by omega
    rw [h0]
  | succ fuel ih =>
    intro q p cur hq hf
    by_cases hql : q = ctx.query.length
    · have h0 : ctx.query.length - q = 0 := by omega
      rw [h0, rsmnm_succ, rsmnm_zero, if_pos hql, if_pos hql]
    · have hqlt : q < ctx.query.length := by omega
      have hnm : ctx.query.length - q = (ctx.query.length - (q + 1)) + 1 := by omega
      rw [hnm, rsmnm_succ, rsmnm_succ, if_neg hql, if_neg hql]
      have hrec : ∀ p' c, recursive_score_match_nomemo ctx fuel (q + 1) p' c =
          recursive_score_match_nomemo ctx (ctx.query.length - (q + 1)) (q + 1) p' c := by
        intro p' c
        exact ih (q + 1) p' c (by omega) (by omega)
      rw [foldl_congr_fn (fun acc j => step_nomemo_recur_congr ctx hrec q p cur acc j)]

/-- Distinct visitable matrix cells have distinct flat indices. -/
theorem matrix_cell_inj (L : ℕ) {q p q' p' : ℕ}
    (h1 : (q = 0 ∧ p = 0) ∨ (1 ≤ p ∧ p ≤ L))
    (h2 : (q' = 0 ∧ p' = 0) ∨ (1 ≤ p' ∧ p' ≤ L))
    (heq : q * L + p = q' * L + p') : q = q' ∧ p = p' := by
  rcases h1 with ⟨hq0, hp0⟩ | ⟨hp1, hpL⟩ <;> rcases h2 with ⟨hq0', hp0'⟩ | ⟨hp1', hpL'⟩
  · exact ⟨by omega, by omega⟩
  · exfalso
    subst hq0
    subst hp0
    have hge : 1 ≤ q' * L + p' := le_trans hp1' (Nat.le_add_left p' (q' * L))
    omega
  · exfalso
    subst hq0'
    subst hp0'
    have hge : 1 ≤ q * L + p := le_trans hp1 (Nat.le_add_left p (q * L))
    omega
  · have hqq : q = q' := by
      rcases Nat.lt_trichotomy q q' with h | h | h
      · exfalso
        have h1' : (q + 1) * L ≤ q' * L := Nat.mul_le_mul_right L h
        have h2' : q * L + p ≤ (q + 1) * L := by
          rw [Nat.succ_mul]
          omega
        have h3' : q' * L < q' * L + p' := by omega
        omega
      · exact h
      · exfalso
        have h1' : (q' + 1) * L ≤ q * L := Nat.mul_le_mul_right L h
        have h2' : q' * L + p' ≤ (q' + 1) * L := by
          rw [Nat.succ_mul]
          omega
        have h3' : q * L < q * L + p := by omega
        omega
    refine ⟨hqq, ?_⟩
    subst hqq
    omega

theorem toNM_score (acc : LoopAcc) : acc.toNM.score = acc.score := rfl

theorem toNM_last_slash (acc : LoopAcc) : acc.toNM.last_slash = acc.last_slash := rfl

theorem toNM_broke (acc : LoopAcc) : acc.toNM.broke = acc.broke := rfl

set_option maxHeartbeats 3200000 in
/-- One column step of the memoized loop corresponds to one column step of the
memoization-free loop, given that the recursive calls correspond. -/
theorem step_correspond (ctx : ScoreCtx) (hmin : ctx.min_score = 0)
    (q p : ℕ) (cur : ℚ) (fuel : ℕ)
    (hrec : ∀ (p' : ℕ) (c : ℚ) (m : ScoreMats), score_matrix_coherent ctx m →
      1 ≤ p' → p' ≤ ctx.path_len →
      (recursive_score_match ctx fuel (q + 1) p' c m).1 =
        recursive_score_match_nomemo ctx (ctx.query.length - (q + 1)) (q + 1) p' 0 ∧
      score_matrix_coherent ctx (recursive_score_match ctx fuel (q + 1) p' c m).2)
    (j : ℕ) (hj : j < ctx.path_len) (acc : LoopAcc)
    (h4 : score_matrix_coherent ctx acc.mats) :
    (score_step ctx (fun p' c m => recursive_score_match ctx fuel (q + 1) p' c m)
        q p cur acc j).toNM =
      score_step_nomemo ctx
        (fun p' c => recursive_score_match_nomemo ctx (ctx.query.length - (q + 1))
          (q + 1) p' c) q p 0 acc.toNM j ∧
    score_matrix_coherent ctx
      (score_step ctx (fun p' c m => recursive_score_match ctx fuel (q + 1) p' c m)
        q p cur acc j).mats := by
  constructor
  · simp only [score_step, score_step_nomemo, toNM_score, toNM_last_slash, toNM_broke,
      hmin, lt_self_iff_false, false_and, if_false]
    rw [(hrec (j + 1) 1 acc.mats h4 (by omega) (by omega)).1,
      rsmnm_cur_irrel ctx hmin (ctx.query.length - (q + 1)) (q + 1) (j + 1) 1 0]
    repeat' split
    all_goals rfl
  · simp only [score_step, hmin, lt_self_iff_false, false_and, if_false]
    repeat' split
    all_goals
      first
        | exact h4
        | exact (hrec (j + 1) 1 acc.mats h4 (by omega) (by omega)).2

/-- The full column loop corresponds, threading coherence. -/
theorem fold_correspond (ctx : ScoreCtx) (hmin : ctx.min_score = 0)
    (q p : ℕ) (cur : ℚ) (fuel : ℕ)
    (hrec : ∀ (p' : ℕ) (c : ℚ) (m : ScoreMats), score_matrix_coherent ctx m →
      1 ≤ p' → p' ≤ ctx.path_len →
      (recursive_score_match ctx fuel (q + 1) p' c m).1 =
        recursive_score_match_nomemo ctx (ctx.query.length - (q + 1)) (q + 1) p' 0 ∧
      score_matrix_coherent ctx (recursive_score_match ctx fuel (q + 1) p' c m).2) :
    ∀ (js : List ℕ), (∀ j ∈ js, j < ctx.path_len) →
      ∀ (acc : LoopAcc), score_matrix_coherent ctx acc.mats →
      ((js.foldl (score_step ctx
          (fun p' c m => recursive_score_match ctx fuel (q + 1) p' c m) q p cur)
        acc).toNM =
        js.foldl (score_step_nomemo ctx
          (fun p' c => recursive_score_match_nomemo ctx (ctx.query.length - (q + 1))
            (q + 1) p' c) q p 0) acc.toNM) ∧
      score_matrix_coherent ctx
        (js.foldl (score_step ctx
          (fun p' c m => recursive_score_match ctx fuel (q + 1) p' c m) q p cur)
          acc).mats := by
  intro js
  induction js with
  | nil =>
    intro _ acc h
    exact ⟨rfl, h⟩
  | cons j js ihl =>
    intro hmem acc hcohacc
    rw [List.foldl_cons, List.foldl_cons]
    obtain ⟨hstep1, hstep2⟩ := step_correspond ctx hmin q p cur fuel hrec j
      (hmem j (List.mem_cons_self j js)) acc hcohacc
    rw [← hstep1]
    exact ihl (fun j' hj' => hmem j' (List.mem_cons_of_mem j hj')) _ hstep2

/-- With pruning disabled (`min_score = 0`), the memoized recursion returns the
memoization-free recursion's value and preserves memo-table coherence. -/
theorem rsm_min0_eq_nomemo (ctx : ScoreCtx) (hmin : ctx.min_score = 0)
    (hlimit : ∀ i, ctx.last_positions.getD i 0 < ctx.path_len) :
    ∀ (fuel q p : ℕ) (cur : ℚ) (mats : ScoreMats),
      q ≤ ctx.query.length →
      ctx.query.length - q ≤ fuel →
      ((q = 0 ∧ p = 0) ∨ (1 ≤ p ∧ p ≤ ctx.path_len)) →
      score_matrix_coherent ctx mats →
      (recursive_score_match ctx fuel q p cur mats).1 =
        recursive_score_match_nomemo ctx (ctx.query.length - q) q p 0 ∧
      score_matrix_coherent ctx (recursive_score_match ctx fuel q p cur mats).2 := by
  intro fuel
  induction fuel with
  | zero =>
    intro q p cur mats hq hf hvalid hcoh
    have hql : q = ctx.query.length := by omega
    rw [rsm_zero, if_pos hql]
    have h0 : ctx.query.length - q = 0 := by omega
    rw [h0, rsmnm_zero, if_pos hql]
    exact ⟨rfl, hcoh⟩
  | succ fuel ih =>
    intro q p cur mats hq hf hvalid hcoh
    by_cases hql : q = ctx.query.length
    · rw [rsm_succ, if_pos hql]
      have h0 : ctx.query.length - q = 0 := by omega
      rw [h0, rsmnm_zero, if_pos hql]
      exact ⟨rfl, hcoh⟩
    · have hqlt : q < ctx.query.length := by omega
      have hnm : ctx.query.length - q = (ctx.query.length - (q + 1)) + 1 := by omega
      have hrec : ∀ (p' : ℕ) (c : ℚ) (m : ScoreMats), score_matrix_coherent ctx m →
          1 ≤ p' → p' ≤ ctx.path_len →
          (recursive_score_match ctx fuel (q + 1) p' c m).1 =
            recursive_score_match_nomemo ctx (ctx.query.length - (q + 1)) (q + 1) p' 0 ∧
          score_matrix_coherent ctx (recursive_score_match ctx fuel (q + 1) p' c m).2 :=
        fun p' c m hm h1 h2 =>
          ih (q + 1) p' c m (by omega) (by omega) (Or.inr ⟨h1, h2⟩) hm
      rw [rsm_succ, if_neg hql]
      rcases hmemo : mats.score_matrix.getD (q * ctx.path_len + p) none with _ | v
      · simp only [hmemo]
        have hjs : ∀ j ∈ List.range' p (ctx.last_positions.getD q 0 + 1 - p),
            j < ctx.path_len := by
          intro j hj
          rw [List.mem_range'_1] at hj
          have := hlimit q
          omega
        obtain ⟨hfold1, hfold2⟩ := fold_correspond ctx hmin q p cur fuel hrec
          (List.range' p (ctx.last_positions.getD q 0 + 1 - p)) hjs
          ⟨0, 0, 0, mats, false⟩ hcoh
        constructor
        · rw [hnm, rsmnm_succ, if_neg hql]
          have := congrArg LoopAccNM.score hfold1
          rw [toNM_score] at this
          exact this
        · intro q'' p'' v'' hq'' hvalid'' hget''
          by_cases hcell : q'' * ctx.path_len + p'' = q * ctx.path_len + p
          · obtain ⟨hqe, hpe⟩ := matrix_cell_inj ctx.path_len hvalid'' hvalid hcell
            subst hqe
            subst hpe
            rw [hcell] at hget''
            by_cases hlen : q'' * ctx.path_len + p'' <
                (List.foldl (score_step ctx
                  (fun p' c m => recursive_score_match ctx fuel (q'' + 1) p' c m)
                  q'' p'' cur)
                  ⟨0, 0, 0, mats, false⟩
                  (List.range' p'' (ctx.last_positions.getD q'' 0 + 1 - p''))).mats.score_matrix.length
            · rw [getD_set_self _ _ _ _ hlen] at hget''
              have hv : v'' = (List.foldl (score_step ctx
                  (fun p' c m => recursive_score_match ctx fuel (q'' + 1) p' c m)
                  q'' p'' cur)
                  ⟨0, 0, 0, mats, false⟩
                  (List.range' p'' (ctx.last_positions.getD q'' 0 + 1 - p''))).score :=
                (Option.some.inj hget'').symm
              rw [hv]
              have := congrArg LoopAccNM.score hfold1
              rw [toNM_score] at this
              rw [this, hnm, rsmnm_succ, if_neg hql]
              rfl
            · rw [List.getD_eq_getElem?_getD] at hget''
              rw [List.getElem?_set] at hget''
              simp only [if_pos rfl, if_neg (by omega : ¬ q'' * ctx.path_len + p'' <
                (List.foldl (score_step ctx
                  (fun p' c m => recursive_score_match ctx fuel (q'' + 1) p' c m)
                  q'' p'' cur)
                  ⟨0, 0, 0, mats, false⟩
                  (List.range' p'' (ctx.last_positions.getD q'' 0 + 1 - p''))).mats.score_matrix.length)] at hget''
              exact absurd hget'' (by simp)
          · rw [getD_set_ne _ _ _ (fun h => hcell h.symm)] at hget''
            exact hfold2 q'' p'' v'' hq'' hvalid'' hget''
      · simp only [hmemo]
        exact ⟨hcoh q p v hqlt hvalid hmemo, hcoh⟩

/-- C5 (amended): memoization consistency holds once the pruning floor is
removed.  For every scoring context with `min_score = 0` (so the sentinel-memo
branch is unreachable) whose `last_positions` entries are in bounds, the score
`score_match` computes through freshly cleared matrices equals the score of the
memoization-free recursion, scaled by the query length and clamped at 0 exactly
as the source clamps it. -/
theorem c5_memo_consistent_without_pruning (ctx : ScoreCtx)
    (hmin : ctx.min_score = 0)
    (hlimit : ∀ i, ctx.last_positions.getD i 0 < ctx.path_len) :
    (score_match ctx ⟨List.replicate (ctx.query.length * ctx.path_len) none,
        List.replicate (ctx.query.length * ctx.path_len) 0⟩).1 =
      if recursive_score_match_nomemo ctx ctx.query.length 0 0 0 * (ctx.query.length : ℚ) ≤ 0
      then 0
      else recursive_score_match_nomemo ctx ctx.query.length 0 0 0 * (ctx.query.length : ℚ) := by
  have hcoh : score_matrix_coherent ctx
      ⟨List.replicate (ctx.query.length * ctx.path_len) none,
       List.replicate (ctx.query.length * ctx.path_len) 0⟩ := by
    intro q p v _ _ hget
    rw [getD_replicate] at hget
    exact absurd hget (by split <;> simp)
  have h := (rsm_min0_eq_nomemo ctx hmin hlimit ctx.query.length 0 0
      (ctx.query.length : ℚ)
      ⟨List.replicate (ctx.query.length * ctx.path_len) none,
       List.replicate (ctx.query.length * ctx.path_len) 0⟩
      (Nat.zero_le _) (by omega) (Or.inl ⟨rfl, rfl⟩) hcoh).1
  rw [Nat.sub_zero] at h
  simp only [score_match]
  rw [h]
  by_cases hle : recursive_score_match_nomemo ctx ctx.query.length 0 0 0 *
      (ctx.query.length : ℚ) ≤ 0
  · rw [if_pos hle, if_pos hle]
  · rw [if_neg hle, if_neg hle]

/-- Witness for the amended C5 theorem: the context scoring query `a` against
path `a` with `min_score = 0` satisfies both hypotheses. -/
theorem c5_memo_consistent_without_pruning_witness :
    (score_match ⟨['a'], ['a'], ['a'], ['a'], [], [], false, [0], 0⟩
        ⟨List.replicate 1 none, List.replicate 1 0⟩).1 =
      if recursive_score_match_nomemo
            ⟨['a'], ['a'], ['a'], ['a'], [], [], false, [0], 0⟩ 1 0 0 0 * ((1 : ℕ) : ℚ) ≤ 0
      then 0
      else recursive_score_match_nomemo
            ⟨['a'], ['a'], ['a'], ['a'], [], [], false, [0], 0⟩ 1 0 0 0 * ((1 : ℕ) : ℚ) :=
  c5_memo_consistent_without_pruning ⟨['a'], ['a'], ['a'], ['a'], [], [], false, [0], 0⟩ rfl
    (by intro i; cases i <;> simp [List.getD, ScoreCtx.path_len])

/-- `scan_step` at pruning floor `0` acts as `candidate_match` plus the push
bookkeeping: a rejected candidate leaves the state unchanged, a scored one is
pushed and `min_score` is updated only when the heap reaches capacity. -/
theorem scan_step_spec (irn : Bool) (q lq : List Char) (qc : CharBag)
    (smart : Bool) (K : ℕ) (res : List PathMatch) (sc : Snapshot × MatchCandidate) :
    scan_step irn q lq qc smart K ⟨res, 0⟩ sc =
      match candidate_match irn q lq qc smart sc with
      | none => ⟨res, 0⟩
      | some pm =>
          ⟨pm :: res, if (pm :: res).length = K then heap_min_score (pm :: res) else 0⟩ := by
  simp only [scan_step, candidate_match, process_candidate]
  repeat' split
  all_goals first | rfl | simp_all

/-- Worker fold below capacity: starting from `min_score = 0`, when the heap can
never reach `max_results` the scan over a candidate list collects exactly the
`candidate_match` results (in reverse push order) and `min_score` stays `0`. -/
theorem scan_fold_below_capacity (irn : Bool) (q lq : List Char) (qc : CharBag)
    (smart : Bool) (K : ℕ) :
    ∀ (l : List (Snapshot × MatchCandidate)) (res : List PathMatch),
      res.length + (l.filterMap (candidate_match irn q lq qc smart)).length < K →
      l.foldl (scan_step irn q lq qc smart K) ⟨res, 0⟩ =
        ⟨(l.filterMap (candidate_match irn q lq qc smart)).reverse ++ res, 0⟩ := by
  intro l
  induction l with
  | nil => intro res h; simp
  | cons sc rest ih =>
    intro res h
    rw [List.foldl_cons, scan_step_spec]
    rcases hcm : candidate_match irn q lq qc smart sc with _ | pm
    · simp only [hcm]
      rw [List.filterMap_cons_none hcm] at h ⊢
      exact ih res h
    · simp only [hcm]
      rw [List.filterMap_cons_some hcm] at h ⊢
      have hne : (pm :: res).length ≠ K := by
        simp only [List.length_cons] at h ⊢
        omega
      rw [if_neg hne]
      have hb : (pm :: res).length +
          (rest.filterMap (candidate_match irn q lq qc smart)).length < K := by
        simp only [List.length_cons] at h ⊢
        omega
      rw [ih (pm :: res) hb]
      simp [List.reverse_cons, List.append_assoc]

/-- `match_single_tree_paths` with the cancellation flag down is the fold of
`scan_step` over the snapshot-tagged candidate list. -/
theorem msp_as_scan (s : Snapshot) (irn : Bool) (q lq : List Char) (qc : CharBag)
    (smart : Bool) (K : ℕ) :
    ∀ (entries : List MatchCandidate) (st : SegState),
      match_single_tree_paths s irn entries q lq qc smart K false st =
        (entries.map (fun c => (s, c))).foldl (scan_step irn q lq qc smart K) st := by
  intro entries
  induction entries with
  | nil => intro st; rfl
  | cons c rest ih =>
    intro st
    rw [List.map_cons, List.foldl_cons]
    by_cases hbag : c.char_bag.is_superset qc
    · simp only [match_single_tree_paths, scan_step, hbag, not_true_eq_false, ite_false,
        if_false, Bool.false_eq_true]
      exact ih _
    · simp only [match_single_tree_paths, scan_step, hbag, not_false_eq_true, ite_true,
        if_true]
      exact ih _

theorem foldl_flatten_fold {α β : Type} (f : β → α → β) :
    ∀ (L : List (List α)) (b : β),
      L.flatten.foldl f b = L.foldl (fun acc l => l.foldl f acc) b := by
  intro L
  induction L with
  | nil => intro b; rfl
  | cons l L ih =>
    intro b
    rw [List.flatten_cons, List.foldl_append, List.foldl_cons]
    exact ih _

/-- A worker run is the fold of `scan_step` over the worker's scan list. -/
theorem run_worker_as_scan (irn ii : Bool) (q lq : List Char) (qc : CharBag)
    (smart : Bool) (K : ℕ) (snapshots : List Snapshot) (a b : ℕ) :
    run_worker irn ii q lq qc smart K false snapshots a b =
      (worker_scan ii a b snapshots 0).foldl (scan_step irn q lq qc smart K) ⟨[], 0⟩ := by
  have h1 : run_worker irn ii q lq qc smart K false snapshots a b =
      (worker_slices ii a b snapshots 0).foldl
        (fun st sc => (sc.2.map (fun c => (sc.1, c))).foldl
          (scan_step irn q lq qc smart K) st) ⟨[], 0⟩ := by
    unfold run_worker
    exact foldl_congr_fn (fun (st : SegState) (sc : Snapshot × List MatchCandidate) =>
      msp_as_scan sc.1 irn q lq qc smart K sc.2 st) _ _
  rw [h1]
  show _ = (((worker_slices ii a b snapshots 0).map
      (fun sc => sc.2.map (fun c => (sc.1, c)))).flatten).foldl
      (scan_step irn q lq qc smart K) ⟨[], 0⟩
  rw [foldl_flatten_fold, List.foldl_map]

theorem filterMap_flatten_eq {α β : Type} (f : α → Option β) :
    ∀ L : List (List α), L.flatten.filterMap f = (L.map (fun l => l.filterMap f)).flatten := by
  intro L
  induction L with
  | nil => rfl
  | cons l L ih => simp [List.filterMap_append, ih]

theorem flatten_reverse_perm {α : Type} :
    ∀ L : List (List α), ((L.map List.reverse).flatten).Perm L.flatten := by
  intro L
  induction L with
  | nil => exact List.Perm.refl _
  | cons l L ih =>
    simp only [List.map_cons, List.flatten_cons]
    exact (l.reverse_perm).append ih

theorem global_candidates_length (ii : Bool) (snapshots : List Snapshot) :
    (global_candidates ii snapshots).length = total_path_count ii snapshots := by
  induction snapshots with
  | nil => rfl
  | cons s rest ih =>
    have hcons : global_candidates ii (s :: rest) =
        (tree_files ii s).map (fun c => (s, c)) ++ global_candidates ii rest := by
      simp [global_candidates]
    rw [hcons, List.length_append, List.length_map, tree_files_length, ih]
    simp [total_path_count]

/-- `W` segments of size `⌈N/W⌉` cover all `N` candidates. -/
theorem segment_cover (N W : ℕ) (hW : 0 < W) : N ≤ W * ((N + W - 1) / W) := by
  have h := ceilDiv_le_iff_le_smul (α := ℕ) (β := ℕ) hW
    (b := N) (c := (N + W - 1) / W)
  rw [smul_eq_mul] at h
  exact h.mp (le_of_eq (Nat.ceilDiv_eq_add_pred_div N W))

/-- Below heap capacity, the flattened worker heaps are a permutation of the
per-candidate results over the global candidate list, for every worker count. -/
theorem merged_perm_filterMap (snapshots : List Snapshot) (q : List Char)
    (irn ii smart : Bool) (K W : ℕ) (hW : 0 < W)
    (hcount : ((global_candidates ii snapshots).filterMap
        (candidate_match irn q (q.map toAsciiLower)
          (CharBag.ofChars (q.map toAsciiLower)) smart)).length < K) :
    (match_paths_merged snapshots q irn ii smart K false W).Perm
      ((global_candidates ii snapshots).filterMap
        (candidate_match irn q (q.map toAsciiLower)
          (CharBag.ofChars (q.map toAsciiLower)) smart)) := by
  have hunf : match_paths_merged snapshots q irn ii smart K false W =
      ((List.range W).map (fun w =>
        (run_worker irn ii q (q.map toAsciiLower) (CharBag.ofChars (q.map toAsciiLower))
            smart K false snapshots
            (w * ((total_path_count ii snapshots + W - 1) / W))
            (w * ((total_path_count ii snapshots + W - 1) / W) +
              (total_path_count ii snapshots + W - 1) / W)).results)).flatten := rfl
  rw [hunf]
  have hcover : (global_candidates ii snapshots).length ≤
      W * ((total_path_count ii snapshots + W - 1) / W) := by
    rw [global_candidates_length]
    exact segment_cover _ W hW
  generalize hS : (total_path_count ii snapshots + W - 1) / W = S at hcover ⊢
  have hworker : ∀ w : ℕ,
      (run_worker irn ii q (q.map toAsciiLower) (CharBag.ofChars (q.map toAsciiLower))
          smart K false snapshots (w * S) (w * S + S)).results =
        ((((global_candidates ii snapshots).drop (w * S)).take S).filterMap
          (candidate_match irn q (q.map toAsciiLower)
            (CharBag.ofChars (q.map toAsciiLower)) smart)).reverse := by
    intro w
    have hsub : (((global_candidates ii snapshots).drop (w * S)).take S).Sublist
        (global_candidates ii snapshots) :=
      (List.take_sublist _ _).trans (List.drop_sublist _ _)
    have hcnt : ((((global_candidates ii snapshots).drop (w * S)).take S).filterMap
        (candidate_match irn q (q.map toAsciiLower)
          (CharBag.ofChars (q.map toAsciiLower)) smart)).length < K :=
      lt_of_le_of_lt (List.Sublist.length_le (hsub.filterMap _)) hcount
    rw [run_worker_as_scan, worker_scan_eq, Nat.sub_zero, Nat.sub_zero,
      Nat.add_sub_cancel_left]
    rw [scan_fold_below_capacity irn q (q.map toAsciiLower)
      (CharBag.ofChars (q.map toAsciiLower)) smart K
      (((global_candidates ii snapshots).drop (w * S)).take S) []
      (by simp only [List.length_nil, Nat.zero_add]; exact hcnt)]
    simp
  simp only [hworker]
  have h1 : ((List.range W).map (fun w =>
      ((((global_candidates ii snapshots).drop (w * S)).take S).filterMap
        (candidate_match irn q (q.map toAsciiLower)
          (CharBag.ofChars (q.map toAsciiLower)) smart)).reverse)) =
      (((List.range W).map (fun w =>
        (((global_candidates ii snapshots).drop (w * S)).take S).filterMap
          (candidate_match irn q (q.map toAsciiLower)
            (CharBag.ofChars (q.map toAsciiLower)) smart))).map List.reverse) := by
    rw [List.map_map]
    rfl
  rw [h1]
  refine (flatten_reverse_perm _).trans ?_
  have h2 : ((List.range W).map (fun w =>
      (((global_candidates ii snapshots).drop (w * S)).take S).filterMap
        (candidate_match irn q (q.map toAsciiLower)
          (CharBag.ofChars (q.map toAsciiLower)) smart))) =
      (((List.range W).map (fun w =>
        ((global_candidates ii snapshots).drop (w * S)).take S)).map
          (fun l => l.filterMap (candidate_match irn q (q.map toAsciiLower)
            (CharBag.ofChars (q.map toAsciiLower)) smart))) := by
    rw [List.map_map]
    rfl
  rw [h2, ← filterMap_flatten_eq, flatten_segments_take,
    List.take_of_length_le hcover]

/-- C4 (amended): worker-count independence holds below heap capacity.  When the
cancel flag is down and fewer candidates score positively (at pruning floor `0`)
than `max_results`, no worker's heap ever fills, `min_score` stays `0`
everywhere, and `match_paths` with any worker count `W > 0` returns the same
multiset of `(path, score)` pairs as a single worker.  (Without the capacity
bound the property fails even tie-free, by the stale-sentinel counterexample.) -/
theorem c4_worker_count_independent_below_capacity
    (snapshots : List Snapshot) (query_str : List Char)
    (include_root_name include_ignored smart_case : Bool) (max_results W : ℕ)
    (hW : 0 < W)
    (hcount : ((global_candidates include_ignored snapshots).filterMap
        (candidate_match include_root_name query_str (query_str.map toAsciiLower)
          (CharBag.ofChars (query_str.map toAsciiLower)) smart_case)).length <
      max_results) :
    ((match_paths snapshots query_str include_root_name include_ignored smart_case
        max_results false W).map (fun m => (m.path, m.score))).Perm
      ((match_paths snapshots query_str include_root_name include_ignored smart_case
        max_results false 1).map (fun m => (m.path, m.score))) := by
  have hper : ∀ V : ℕ, 0 < V →
      (match_paths snapshots query_str include_root_name include_ignored smart_case
          max_results false V).Perm
        ((global_candidates include_ignored snapshots).filterMap
          (candidate_match include_root_name query_str (query_str.map toAsciiLower)
            (CharBag.ofChars (query_str.map toAsciiLower)) smart_case)) := by
    intro V hV
    have hm := merged_perm_filterMap snapshots query_str include_root_name
      include_ignored smart_case max_results V hV hcount
    have hms := List.mergeSort_perm (match_paths_merged snapshots query_str
        include_root_name include_ignored smart_case max_results false V)
      (fun a b => decide (b.score ≤ a.score))
    have hlen2 : ((match_paths_merged snapshots query_str include_root_name
        include_ignored smart_case max_results false V).mergeSort
          (fun a b => decide (b.score ≤ a.score))).length ≤ max_results := by
      rw [hms.length_eq, hm.length_eq]
      omega
    rw [match_paths, List.take_of_length_le hlen2]
    exact hms.trans hm
  exact ((hper W hW).trans (hper 1 Nat.one_pos).symm).map (fun m => (m.path, m.score))

/-- Witness for the amended C4 theorem at two workers, an empty snapshot list
and `max_results = 1`. -/
theorem c4_worker_count_independent_below_capacity_witness :
    (0 < 2 ∧ ((global_candidates false []).filterMap
        (candidate_match false ['a'] (['a'].map toAsciiLower)
          (CharBag.ofChars (['a'].map toAsciiLower)) false)).length < 1) ∧
    ((match_paths [] ['a'] false false false 1 false 2).map
        (fun m => (m.path, m.score))).Perm
      ((match_paths [] ['a'] false false false 1 false 1).map
        (fun m => (m.path, m.score))) :=
  ⟨⟨by decide, by decide⟩,
    c4_worker_count_independent_below_capacity [] ['a'] false false false 1 2
      (by decide) (by decide)⟩

/-! ## C2: returned match positions

Evaluation lemmas for the two counterexample candidates: one `c2e<n>` lemma per
call of `recursive_score_match` (in evaluation order, children before parents),
with the scratch matrices kept as `List.set` chains over the cleared state. -/

theorem length_set_eq {α : Type} (l : List α) (i : ℕ) (x : α) :
    (l.set i x).length = l.length := List.length_set l i x

set_option maxRecDepth 40000 in
set_option maxHeartbeats 1000000000 in
theorem c2e1 :
    recursive_score_match ⟨['a','b','c','d','e','f'], ['a','b','c','d','e','f'], ['X','X','X','X','X','X','X','X','X','A','X','X','X','X','X','X','X','X','X','B','X','X','X','X','X','X','X','X','X','C','X','X','X','X','X','X','X','X','X','D','X','X','X','X','X','X','X','X','X','E','X','X','X','X','X','X','X','X','X','F'], ['x','x','x','x','x','x','x','x','x','a','x','x','x','x','x','x','x','x','x','b','x','x','x','x','x','x','x','x','x','c','x','x','x','x','x','x','x','x','x','d','x','x','x','x','x','x','x','x','x','e','x','x','x','x','x','x','x','x','x','f'], [], [], true, [9, 19, 29, 39, 49, 59], 0⟩
      0 6 60 (1) ⟨List.replicate 360 (none : Option ℚ), List.replicate 360 (0 : ℕ)⟩ =
      ((1 : ℚ), ⟨List.replicate 360 (none : Option ℚ), List.replicate 360 (0 : ℕ)⟩) := by
  rw [rsm_zero]
  norm_num

set_option maxRecDepth 40000 in
set_option maxHeartbeats 1000000000 in
theorem c2e2 :
    recursive_score_match ⟨['a','b','c','d','e','f'], ['a','b','c','d','e','f'], ['X','X','X','X','X','X','X','X','X','A','X','X','X','X','X','X','X','X','X','B','X','X','X','X','X','X','X','X','X','C','X','X','X','X','X','X','X','X','X','D','X','X','X','X','X','X','X','X','X','E','X','X','X','X','X','X','X','X','X','F'], ['x','x','x','x','x','x','x','x','x','a','x','x','x','x','x','x','x','x','x','b','x','x','x','x','x','x','x','x','x','c','x','x','x','x','x','x','x','x','x','d','x','x','x','x','x','x','x','x','x','e','x','x','x','x','x','x','x','x','x','f'], [], [], true, [9, 19, 29, 39, 49, 59], 0⟩
      1 5 50 (1) ⟨List.replicate 360 (none : Option ℚ), List.replicate 360 (0 : ℕ)⟩ =
      ((1/5000 : ℚ), ⟨(List.replicate 360 (none : Option ℚ)).set 350 (some (1/5000)), (List.replicate 360 (0 : ℕ)).set 350 59⟩) := by
  rw [show (1 : ℕ) = 0 + 1 from rfl, rsm_succ]
  norm_num +decide [score_step, char_score_of, char_score_cascade, ScoreCtx.path_len,
    SENTINEL_SCORE, BASE_DISTANCE_PENALTY, ADDITIONAL_DISTANCE_PENALTY,
    MIN_DISTANCE_PENALTY, List.range', List.getD_cons_zero, List.getD_cons_succ,
    getD_set_self, getD_set_ne, getD_replicate, length_set_eq, List.length_replicate, c2e1]

set_option maxRecDepth 40000 in
set_option maxHeartbeats 1000000000 in
theorem c2e3 :
    recursive_score_match ⟨['a','b','c','d','e','f'], ['a','b','c','d','e','f'], ['X','X','X','X','X','X','X','X','X','A','X','X','X','X','X','X','X','X','X','B','X','X','X','X','X','X','X','X','X','C','X','X','X','X','X','X','X','X','X','D','X','X','X','X','X','X','X','X','X','E','X','X','X','X','X','X','X','X','X','F'], ['x','x','x','x','x','x','x','x','x','a','x','x','x','x','x','x','x','x','x','b','x','x','x','x','x','x','x','x','x','c','x','x','x','x','x','x','x','x','x','d','x','x','x','x','x','x','x','x','x','e','x','x','x','x','x','x','x','x','x','f'], [], [], true, [9, 19, 29, 39, 49, 59], 0⟩
      2 4 40 (1) ⟨List.replicate 360 (none : Option ℚ), List.replicate 360 (0 : ℕ)⟩ =
      ((1/25000000 : ℚ), ⟨((List.replicate 360 (none : Option ℚ)).set 350 (some (1/5000))).set 280 (some (1/25000000)), ((List.replicate 360 (0 : ℕ)).set 350 59).set 280 49⟩) := by
  rw [show (2 : ℕ) = 1 + 1 from rfl, rsm_succ]
  norm_num +decide [score_step, char_score_of, char_score_cascade, ScoreCtx.path_len,
    SENTINEL_SCORE, BASE_DISTANCE_PENALTY, ADDITIONAL_DISTANCE_PENALTY,
    MIN_DISTANCE_PENALTY, List.range', List.getD_cons_zero, List.getD_cons_succ,
    getD_set_self, getD_set_ne, getD_replicate, length_set_eq, List.length_replicate, c2e2]

set_option maxRecDepth 40000 in
set_option maxHeartbeats 1000000000 in
theorem c2e4 :
    recursive_score_match ⟨['a','b','c','d','e','f'], ['a','b','c','d','e','f'], ['X','X','X','X','X','X','X','X','X','A','X','X','X','X','X','X','X','X','X','B','X','X','X','X','X','X','X','X','X','C','X','X','X','X','X','X','X','X','X','D','X','X','X','X','X','X','X','X','X','E','X','X','X','X','X','X','X','X','X','F'], ['x','x','x','x','x','x','x','x','x','a','x','x','x','x','x','x','x','x','x','b','x','x','x','x','x','x','x','x','x','c','x','x','x','x','x','x','x','x','x','d','x','x','x','x','x','x','x','x','x','e','x','x','x','x','x','x','x','x','x','f'], [], [], true, [9, 19, 29, 39, 49, 59], 0⟩
      3 3 30 (1) ⟨List.replicate 360 (none : Option ℚ), List.replicate 360 (0 : ℕ)⟩ =
      ((1/125000000000 : ℚ), ⟨(((List.replicate 360 (none : Option ℚ)).set 350 (some (1/5000))).set 280 (some (1/25000000))).set 210 (some (1/125000000000)), (((List.replicate 360 (0 : ℕ)).set 350 59).set 280 49).set 210 39⟩) := by
  rw [show (3 : ℕ) = 2 + 1 from rfl, rsm_succ]
  norm_num +decide [score_step, char_score_of, char_score_cascade, ScoreCtx.path_len,
    SENTINEL_SCORE, BASE_DISTANCE_PENALTY, ADDITIONAL_DISTANCE_PENALTY,
    MIN_DISTANCE_PENALTY, List.range', List.getD_cons_zero, List.getD_cons_succ,
    getD_set_self, getD_set_ne, getD_replicate, length_set_eq, List.length_replicate, c2e3]

set_option maxRecDepth 40000 in
set_option maxHeartbeats 1000000000 in
theorem c2e5 :
    recursive_score_match ⟨['a','b','c','d','e','f'], ['a','b','c','d','e','f'], ['X','X','X','X','X','X','X','X','X','A','X','X','X','X','X','X','X','X','X','B','X','X','X','X','X','X','X','X','X','C','X','X','X','X','X','X','X','X','X','D','X','X','X','X','X','X','X','X','X','E','X','X','X','X','X','X','X','X','X','F'], ['x','x','x','x','x','x','x','x','x','a','x','x','x','x','x','x','x','x','x','b','x','x','x','x','x','x','x','x','x','c','x','x','x','x','x','x','x','x','x','d','x','x','x','x','x','x','x','x','x','e','x','x','x','x','x','x','x','x','x','f'], [], [], true, [9, 19, 29, 39, 49, 59], 0⟩
      4 2 20 (1) ⟨List.replicate 360 (none : Option ℚ), List.replicate 360 (0 : ℕ)⟩ =
      ((1/625000000000000 : ℚ), ⟨((((List.replicate 360 (none : Option ℚ)).set 350 (some (1/5000))).set 280 (some (1/25000000))).set 210 (some (1/125000000000))).set 140 (some (1/625000000000000)), ((((List.replicate 360 (0 : ℕ)).set 350 59).set 280 49).set 210 39).set 140 29⟩) := by
  rw [show (4 : ℕ) = 3 + 1 from rfl, rsm_succ]
  norm_num +decide [score_step, char_score_of, char_score_cascade, ScoreCtx.path_len,
    SENTINEL_SCORE, BASE_DISTANCE_PENALTY, ADDITIONAL_DISTANCE_PENALTY,
    MIN_DISTANCE_PENALTY, List.range', List.getD_cons_zero, List.getD_cons_succ,
    getD_set_self, getD_set_ne, getD_replicate, length_set_eq, List.length_replicate, c2e4]

set_option maxRecDepth 40000 in
set_option maxHeartbeats 1000000000 in
theorem c2e6 :
    recursive_score_match ⟨['a','b','c','d','e','f'], ['a','b','c','d','e','f'], ['X','X','X','X','X','X','X','X','X','A','X','X','X','X','X','X','X','X','X','B','X','X','X','X','X','X','X','X','X','C','X','X','X','X','X','X','X','X','X','D','X','X','X','X','X','X','X','X','X','E','X','X','X','X','X','X','X','X','X','F'], ['x','x','x','x','x','x','x','x','x','a','x','x','x','x','x','x','x','x','x','b','x','x','x','x','x','x','x','x','x','c','x','x','x','x','x','x','x','x','x','d','x','x','x','x','x','x','x','x','x','e','x','x','x','x','x','x','x','x','x','f'], [], [], true, [9, 19, 29, 39, 49, 59], 0⟩
      5 1 10 (1) ⟨List.replicate 360 (none : Option ℚ), List.replicate 360 (0 : ℕ)⟩ =
      ((1/3125000000000000000 : ℚ), ⟨(((((List.replicate 360 (none : Option ℚ)).set 350 (some (1/5000))).set 280 (some (1/25000000))).set 210 (some (1/125000000000))).set 140 (some (1/625000000000000))).set 70 (some (1/3125000000000000000)), (((((List.replicate 360 (0 : ℕ)).set 350 59).set 280 49).set 210 39).set 140 29).set 70 19⟩) := by
  rw [show (5 : ℕ) = 4 + 1 from rfl, rsm_succ]
  norm_num +decide [score_step, char_score_of, char_score_cascade, ScoreCtx.path_len,
    SENTINEL_SCORE, BASE_DISTANCE_PENALTY, ADDITIONAL_DISTANCE_PENALTY,
    MIN_DISTANCE_PENALTY, List.range', List.getD_cons_zero, List.getD_cons_succ,
    getD_set_self, getD_set_ne, getD_replicate, length_set_eq, List.length_replicate, c2e5]

set_option maxRecDepth 40000 in
set_option maxHeartbeats 1000000000 in
theorem c2e7 :
    recursive_score_match ⟨['a','b','c','d','e','f'], ['a','b','c','d','e','f'], ['X','X','X','X','X','X','X','X','X','A','X','X','X','X','X','X','X','X','X','B','X','X','X','X','X','X','X','X','X','C','X','X','X','X','X','X','X','X','X','D','X','X','X','X','X','X','X','X','X','E','X','X','X','X','X','X','X','X','X','F'], ['x','x','x','x','x','x','x','x','x','a','x','x','x','x','x','x','x','x','x','b','x','x','x','x','x','x','x','x','x','c','x','x','x','x','x','x','x','x','x','d','x','x','x','x','x','x','x','x','x','e','x','x','x','x','x','x','x','x','x','f'], [], [], true, [9, 19, 29, 39, 49, 59], 0⟩
      6 0 0 (6) ⟨List.replicate 360 (none : Option ℚ), List.replicate 360 (0 : ℕ)⟩ =
      ((1/312500000000000000000000 : ℚ), ⟨((((((List.replicate 360 (none : Option ℚ)).set 350 (some (1/5000))).set 280 (some (1/25000000))).set 210 (some (1/125000000000))).set 140 (some (1/625000000000000))).set 70 (some (1/3125000000000000000))).set 0 (some (1/312500000000000000000000)), ((((((List.replicate 360 (0 : ℕ)).set 350 59).set 280 49).set 210 39).set 140 29).set 70 19).set 0 9⟩) := by
  rw [show (6 : ℕ) = 5 + 1 from rfl, rsm_succ]
  norm_num +decide [score_step, char_score_of, char_score_cascade, ScoreCtx.path_len,
    SENTINEL_SCORE, BASE_DISTANCE_PENALTY, ADDITIONAL_DISTANCE_PENALTY,
    MIN_DISTANCE_PENALTY, List.range', List.getD_cons_zero, List.getD_cons_succ,
    getD_set_self, getD_set_ne, getD_replicate, length_set_eq, List.length_replicate, c2e6]

set_option maxRecDepth 40000 in
set_option maxHeartbeats 1000000000 in
theorem c2e8 :
    recursive_score_match ⟨['a','b','c','d','e','f'], ['a','b','c','d','e','f'], ['X','X','X','X','X','X','X','X','X','A','X','X','X','X','X','X','X','X','X','B','X','X','X','X','X','X','X','X','X','C','X','X','X','X','X','X','X','X','X','D','X','/','a','/','b','/','c','/','d','X','X','X','X','X','X','X','X','X','E','X','X','X','X','X','X','X','X','X','F'], ['x','x','x','x','x','x','x','x','x','a','x','x','x','x','x','x','x','x','x','b','x','x','x','x','x','x','x','x','x','c','x','x','x','x','x','x','x','x','x','d','x','/','a','/','b','/','c','/','d','x','x','x','x','x','x','x','x','x','e','x','x','x','x','x','x','x','x','x','f'], [], [], true, [42, 44, 46, 48, 58, 68], 3/156250000000000000000000⟩
      1 5 59 (3/35937500000000000000) ⟨List.replicate 414 (none : Option ℚ), List.replicate 414 (0 : ℕ)⟩ =
      ((1/1000000000000000000 : ℚ), ⟨(List.replicate 414 (none : Option ℚ)).set 404 (some (1/1000000000000000000)), List.replicate 414 (0 : ℕ)⟩) := by
  rw [show (1 : ℕ) = 0 + 1 from rfl, rsm_succ]
  norm_num +decide [score_step, char_score_of, char_score_cascade, ScoreCtx.path_len,
    SENTINEL_SCORE, BASE_DISTANCE_PENALTY, ADDITIONAL_DISTANCE_PENALTY,
    MIN_DISTANCE_PENALTY, List.range', List.getD_cons_zero, List.getD_cons_succ,
    getD_set_self, getD_set_ne, getD_replicate, length_set_eq, List.length_replicate]

set_option maxRecDepth 40000 in
set_option maxHeartbeats 1000000000 in
theorem c2e9 :
    recursive_score_match ⟨['a','b','c','d','e','f'], ['a','b','c','d','e','f'], ['X','X','X','X','X','X','X','X','X','A','X','X','X','X','X','X','X','X','X','B','X','X','X','X','X','X','X','X','X','C','X','X','X','X','X','X','X','X','X','D','X','/','a','/','b','/','c','/','d','X','X','X','X','X','X','X','X','X','E','X','X','X','X','X','X','X','X','X','F'], ['x','x','x','x','x','x','x','x','x','a','x','x','x','x','x','x','x','x','x','b','x','x','x','x','x','x','x','x','x','c','x','x','x','x','x','x','x','x','x','d','x','/','a','/','b','/','c','/','d','x','x','x','x','x','x','x','x','x','e','x','x','x','x','x','x','x','x','x','f'], [], [], true, [42, 44, 46, 48, 58, 68], 3/156250000000000000000000⟩
      2 4 40 (3/7187500000000000) ⟨List.replicate 414 (none : Option ℚ), List.replicate 414 (0 : ℕ)⟩ =
      ((1/5000000000000000000000 : ℚ), ⟨((List.replicate 414 (none : Option ℚ)).set 404 (some (1/1000000000000000000))).set 316 (some (1/5000000000000000000000)), (List.replicate 414 (0 : ℕ)).set 316 58⟩) := by
  rw [show (2 : ℕ) = 1 + 1 from rfl, rsm_succ]
  norm_num +decide [score_step, char_score_of, char_score_cascade, ScoreCtx.path_len,
    SENTINEL_SCORE, BASE_DISTANCE_PENALTY, ADDITIONAL_DISTANCE_PENALTY,
    MIN_DISTANCE_PENALTY, List.range', List.getD_cons_zero, List.getD_cons_succ,
    getD_set_self, getD_set_ne, getD_replicate, length_set_eq, List.length_replicate, c2e8]

set_option maxRecDepth 40000 in
set_option maxHeartbeats 1000000000 in
theorem c2e10 :
    recursive_score_match ⟨['a','b','c','d','e','f'], ['a','b','c','d','e','f'], ['X','X','X','X','X','X','X','X','X','A','X','X','X','X','X','X','X','X','X','B','X','X','X','X','X','X','X','X','X','C','X','X','X','X','X','X','X','X','X','D','X','/','a','/','b','/','c','/','d','X','X','X','X','X','X','X','X','X','E','X','X','X','X','X','X','X','X','X','F'], ['x','x','x','x','x','x','x','x','x','a','x','x','x','x','x','x','x','x','x','b','x','x','x','x','x','x','x','x','x','c','x','x','x','x','x','x','x','x','x','d','x','/','a','/','b','/','c','/','d','x','x','x','x','x','x','x','x','x','e','x','x','x','x','x','x','x','x','x','f'], [], [], true, [42, 44, 46, 48, 58, 68], 3/156250000000000000000000⟩
      1 5 59 (27/71875000000000000) ⟨((List.replicate 414 (none : Option ℚ)).set 404 (some (1/1000000000000000000))).set 316 (some (1/5000000000000000000000)), (List.replicate 414 (0 : ℕ)).set 316 58⟩ =
      ((1/1000000000000000000 : ℚ), ⟨((List.replicate 414 (none : Option ℚ)).set 404 (some (1/1000000000000000000))).set 316 (some (1/5000000000000000000000)), (List.replicate 414 (0 : ℕ)).set 316 58⟩) := by
  rw [show (1 : ℕ) = 0 + 1 from rfl, rsm_succ]
  norm_num +decide [ScoreCtx.path_len, getD_set_self, getD_set_ne,
    getD_replicate, length_set_eq, List.length_replicate]

set_option maxRecDepth 40000 in
set_option maxHeartbeats 1000000000 in
theorem c2e11 :
    recursive_score_match ⟨['a','b','c','d','e','f'], ['a','b','c','d','e','f'], ['X','X','X','X','X','X','X','X','X','A','X','X','X','X','X','X','X','X','X','B','X','X','X','X','X','X','X','X','X','C','X','X','X','X','X','X','X','X','X','D','X','/','a','/','b','/','c','/','d','X','X','X','X','X','X','X','X','X','E','X','X','X','X','X','X','X','X','X','F'], ['x','x','x','x','x','x','x','x','x','a','x','x','x','x','x','x','x','x','x','b','x','x','x','x','x','x','x','x','x','c','x','x','x','x','x','x','x','x','x','d','x','/','a','/','b','/','c','/','d','x','x','x','x','x','x','x','x','x','e','x','x','x','x','x','x','x','x','x','f'], [], [], true, [42, 44, 46, 48, 58, 68], 3/156250000000000000000000⟩
      2 4 49 (27/14375000000000) ⟨((List.replicate 414 (none : Option ℚ)).set 404 (some (1/1000000000000000000))).set 316 (some (1/5000000000000000000000)), (List.replicate 414 (0 : ℕ)).set 316 58⟩ =
      ((1/5000000000000000000000 : ℚ), ⟨(((List.replicate 414 (none : Option ℚ)).set 404 (some (1/1000000000000000000))).set 316 (some (1/5000000000000000000000))).set 325 (some (1/5000000000000000000000)), ((List.replicate 414 (0 : ℕ)).set 316 58).set 325 58⟩) := by
  rw [show (2 : ℕ) = 1 + 1 from rfl, rsm_succ]
  norm_num +decide [score_step, char_score_of, char_score_cascade, ScoreCtx.path_len,
    SENTINEL_SCORE, BASE_DISTANCE_PENALTY, ADDITIONAL_DISTANCE_PENALTY,
    MIN_DISTANCE_PENALTY, List.range', List.getD_cons_zero, List.getD_cons_succ,
    getD_set_self, getD_set_ne, getD_replicate, length_set_eq, List.length_replicate, c2e10]

set_option maxRecDepth 40000 in
set_option maxHeartbeats 1000000000 in
theorem c2e12 :
    recursive_score_match ⟨['a','b','c','d','e','f'], ['a','b','c','d','e','f'], ['X','X','X','X','X','X','X','X','X','A','X','X','X','X','X','X','X','X','X','B','X','X','X','X','X','X','X','X','X','C','X','X','X','X','X','X','X','X','X','D','X','/','a','/','b','/','c','/','d','X','X','X','X','X','X','X','X','X','E','X','X','X','X','X','X','X','X','X','F'], ['x','x','x','x','x','x','x','x','x','a','x','x','x','x','x','x','x','x','x','b','x','x','x','x','x','x','x','x','x','c','x','x','x','x','x','x','x','x','x','d','x','/','a','/','b','/','c','/','d','x','x','x','x','x','x','x','x','x','e','x','x','x','x','x','x','x','x','x','f'], [], [], true, [42, 44, 46, 48, 58, 68], 3/156250000000000000000000⟩
      3 3 30 (3/1437500000000) ⟨List.replicate 414 (none : Option ℚ), List.replicate 414 (0 : ℕ)⟩ =
      ((9/50000000000000000000000 : ℚ), ⟨((((List.replicate 414 (none : Option ℚ)).set 404 (some (1/1000000000000000000))).set 316 (some (1/5000000000000000000000))).set 325 (some (1/5000000000000000000000))).set 237 (some (9/50000000000000000000000)), (((List.replicate 414 (0 : ℕ)).set 316 58).set 325 58).set 237 48⟩) := by
  rw [show (3 : ℕ) = 2 + 1 from rfl, rsm_succ]
  norm_num +decide [score_step, char_score_of, char_score_cascade, ScoreCtx.path_len,
    SENTINEL_SCORE, BASE_DISTANCE_PENALTY, ADDITIONAL_DISTANCE_PENALTY,
    MIN_DISTANCE_PENALTY, List.range', List.getD_cons_zero, List.getD_cons_succ,
    getD_set_self, getD_set_ne, getD_replicate, length_set_eq, List.length_replicate, c2e9, c2e11]

set_option maxRecDepth 40000 in
set_option maxHeartbeats 1000000000 in
theorem c2e13 :
    recursive_score_match ⟨['a','b','c','d','e','f'], ['a','b','c','d','e','f'], ['X','X','X','X','X','X','X','X','X','A','X','X','X','X','X','X','X','X','X','B','X','X','X','X','X','X','X','X','X','C','X','X','X','X','X','X','X','X','X','D','X','/','a','/','b','/','c','/','d','X','X','X','X','X','X','X','X','X','E','X','X','X','X','X','X','X','X','X','F'], ['x','x','x','x','x','x','x','x','x','a','x','x','x','x','x','x','x','x','x','b','x','x','x','x','x','x','x','x','x','c','x','x','x','x','x','x','x','x','x','d','x','/','a','/','b','/','c','/','d','x','x','x','x','x','x','x','x','x','e','x','x','x','x','x','x','x','x','x','f'], [], [], true, [42, 44, 46, 48, 58, 68], 3/156250000000000000000000⟩
      2 4 49 (243/28750000000) ⟨((((List.replicate 414 (none : Option ℚ)).set 404 (some (1/1000000000000000000))).set 316 (some (1/5000000000000000000000))).set 325 (some (1/5000000000000000000000))).set 237 (some (9/50000000000000000000000)), (((List.replicate 414 (0 : ℕ)).set 316 58).set 325 58).set 237 48⟩ =
      ((1/5000000000000000000000 : ℚ), ⟨((((List.replicate 414 (none : Option ℚ)).set 404 (some (1/1000000000000000000))).set 316 (some (1/5000000000000000000000))).set 325 (some (1/5000000000000000000000))).set 237 (some (9/50000000000000000000000)), (((List.replicate 414 (0 : ℕ)).set 316 58).set 325 58).set 237 48⟩) := by
  rw [show (2 : ℕ) = 1 + 1 from rfl, rsm_succ]
  norm_num +decide [ScoreCtx.path_len, getD_set_self, getD_set_ne,
    getD_replicate, length_set_eq, List.length_replicate]

set_option maxRecDepth 40000 in
set_option maxHeartbeats 1000000000 in
theorem c2e14 :
    recursive_score_match ⟨['a','b','c','d','e','f'], ['a','b','c','d','e','f'], ['X','X','X','X','X','X','X','X','X','A','X','X','X','X','X','X','X','X','X','B','X','X','X','X','X','X','X','X','X','C','X','X','X','X','X','X','X','X','X','D','X','/','a','/','b','/','c','/','d','X','X','X','X','X','X','X','X','X','E','X','X','X','X','X','X','X','X','X','F'], ['x','x','x','x','x','x','x','x','x','a','x','x','x','x','x','x','x','x','x','b','x','x','x','x','x','x','x','x','x','c','x','x','x','x','x','x','x','x','x','d','x','/','a','/','b','/','c','/','d','x','x','x','x','x','x','x','x','x','e','x','x','x','x','x','x','x','x','x','f'], [], [], true, [42, 44, 46, 48, 58, 68], 3/156250000000000000000000⟩
      3 3 47 (27/2875000000) ⟨((((List.replicate 414 (none : Option ℚ)).set 404 (some (1/1000000000000000000))).set 316 (some (1/5000000000000000000000))).set 325 (some (1/5000000000000000000000))).set 237 (some (9/50000000000000000000000)), (((List.replicate 414 (0 : ℕ)).set 316 58).set 325 58).set 237 48⟩ =
      ((9/50000000000000000000000 : ℚ), ⟨(((((List.replicate 414 (none : Option ℚ)).set 404 (some (1/1000000000000000000))).set 316 (some (1/5000000000000000000000))).set 325 (some (1/5000000000000000000000))).set 237 (some (9/50000000000000000000000))).set 254 (some (9/50000000000000000000000)), ((((List.replicate 414 (0 : ℕ)).set 316 58).set 325 58).set 237 48).set 254 48⟩) := by
  rw [show (3 : ℕ) = 2 + 1 from rfl, rsm_succ]
  norm_num +decide [score_step, char_score_of, char_score_cascade, ScoreCtx.path_len,
    SENTINEL_SCORE, BASE_DISTANCE_PENALTY, ADDITIONAL_DISTANCE_PENALTY,
    MIN_DISTANCE_PENALTY, List.range', List.getD_cons_zero, List.getD_cons_succ,
    getD_set_self, getD_set_ne, getD_replicate, length_set_eq, List.length_replicate, c2e13]

set_option maxRecDepth 40000 in
set_option maxHeartbeats 1000000000 in
theorem c2e15 :
    recursive_score_match ⟨['a','b','c','d','e','f'], ['a','b','c','d','e','f'], ['X','X','X','X','X','X','X','X','X','A','X','X','X','X','X','X','X','X','X','B','X','X','X','X','X','X','X','X','X','C','X','X','X','X','X','X','X','X','X','D','X','/','a','/','b','/','c','/','d','X','X','X','X','X','X','X','X','X','E','X','X','X','X','X','X','X','X','X','F'], ['x','x','x','x','x','x','x','x','x','a','x','x','x','x','x','x','x','x','x','b','x','x','x','x','x','x','x','x','x','c','x','x','x','x','x','x','x','x','x','d','x','/','a','/','b','/','c','/','d','x','x','x','x','x','x','x','x','x','e','x','x','x','x','x','x','x','x','x','f'], [], [], true, [42, 44, 46, 48, 58, 68], 3/156250000000000000000000⟩
      4 2 20 (3/287500000) ⟨List.replicate 414 (none : Option ℚ), List.replicate 414 (0 : ℕ)⟩ =
      ((81/500000000000000000000000 : ℚ), ⟨((((((List.replicate 414 (none : Option ℚ)).set 404 (some (1/1000000000000000000))).set 316 (some (1/5000000000000000000000))).set 325 (some (1/5000000000000000000000))).set 237 (some (9/50000000000000000000000))).set 254 (some (9/50000000000000000000000))).set 158 (some (81/500000000000000000000000)), (((((List.replicate 414 (0 : ℕ)).set 316 58).set 325 58).set 237 48).set 254 48).set 158 46⟩) := by
  rw [show (4 : ℕ) = 3 + 1 from rfl, rsm_succ]
  norm_num +decide [score_step, char_score_of, char_score_cascade, ScoreCtx.path_len,
    SENTINEL_SCORE, BASE_DISTANCE_PENALTY, ADDITIONAL_DISTANCE_PENALTY,
    MIN_DISTANCE_PENALTY, List.range', List.getD_cons_zero, List.getD_cons_succ,
    getD_set_self, getD_set_ne, getD_replicate, length_set_eq, List.length_replicate, c2e12, c2e14]

set_option maxRecDepth 40000 in
set_option maxHeartbeats 1000000000 in
theorem c2e16 :
    recursive_score_match ⟨['a','b','c','d','e','f'], ['a','b','c','d','e','f'], ['X','X','X','X','X','X','X','X','X','A','X','X','X','X','X','X','X','X','X','B','X','X','X','X','X','X','X','X','X','C','X','X','X','X','X','X','X','X','X','D','X','/','a','/','b','/','c','/','d','X','X','X','X','X','X','X','X','X','E','X','X','X','X','X','X','X','X','X','F'], ['x','x','x','x','x','x','x','x','x','a','x','x','x','x','x','x','x','x','x','b','x','x','x','x','x','x','x','x','x','c','x','x','x','x','x','x','x','x','x','d','x','/','a','/','b','/','c','/','d','x','x','x','x','x','x','x','x','x','e','x','x','x','x','x','x','x','x','x','f'], [], [], true, [42, 44, 46, 48, 58, 68], 3/156250000000000000000000⟩
      3 3 47 (243/5750000) ⟨((((((List.replicate 414 (none : Option ℚ)).set 404 (some (1/1000000000000000000))).set 316 (some (1/5000000000000000000000))).set 325 (some (1/5000000000000000000000))).set 237 (some (9/50000000000000000000000))).set 254 (some (9/50000000000000000000000))).set 158 (some (81/500000000000000000000000)), (((((List.replicate 414 (0 : ℕ)).set 316 58).set 325 58).set 237 48).set 254 48).set 158 46⟩ =
      ((9/50000000000000000000000 : ℚ), ⟨((((((List.replicate 414 (none : Option ℚ)).set 404 (some (1/1000000000000000000))).set 316 (some (1/5000000000000000000000))).set 325 (some (1/5000000000000000000000))).set 237 (some (9/50000000000000000000000))).set 254 (some (9/50000000000000000000000))).set 158 (some (81/500000000000000000000000)), (((((List.replicate 414 (0 : ℕ)).set 316 58).set 325 58).set 237 48).set 254 48).set 158 46⟩) := by
  rw [show (3 : ℕ) = 2 + 1 from rfl, rsm_succ]
  norm_num +decide [ScoreCtx.path_len, getD_set_self, getD_set_ne,
    getD_replicate, length_set_eq, List.length_replicate]

set_option maxRecDepth 40000 in
set_option maxHeartbeats 1000000000 in
theorem c2e17 :
    recursive_score_match ⟨['a','b','c','d','e','f'], ['a','b','c','d','e','f'], ['X','X','X','X','X','X','X','X','X','A','X','X','X','X','X','X','X','X','X','B','X','X','X','X','X','X','X','X','X','C','X','X','X','X','X','X','X','X','X','D','X','/','a','/','b','/','c','/','d','X','X','X','X','X','X','X','X','X','E','X','X','X','X','X','X','X','X','X','F'], ['x','x','x','x','x','x','x','x','x','a','x','x','x','x','x','x','x','x','x','b','x','x','x','x','x','x','x','x','x','c','x','x','x','x','x','x','x','x','x','d','x','/','a','/','b','/','c','/','d','x','x','x','x','x','x','x','x','x','e','x','x','x','x','x','x','x','x','x','f'], [], [], true, [42, 44, 46, 48, 58, 68], 3/156250000000000000000000⟩
      4 2 45 (27/575000) ⟨((((((List.replicate 414 (none : Option ℚ)).set 404 (some (1/1000000000000000000))).set 316 (some (1/5000000000000000000000))).set 325 (some (1/5000000000000000000000))).set 237 (some (9/50000000000000000000000))).set 254 (some (9/50000000000000000000000))).set 158 (some (81/500000000000000000000000)), (((((List.replicate 414 (0 : ℕ)).set 316 58).set 325 58).set 237 48).set 254 48).set 158 46⟩ =
      ((81/500000000000000000000000 : ℚ), ⟨(((((((List.replicate 414 (none : Option ℚ)).set 404 (some (1/1000000000000000000))).set 316 (some (1/5000000000000000000000))).set 325 (some (1/5000000000000000000000))).set 237 (some (9/50000000000000000000000))).set 254 (some (9/50000000000000000000000))).set 158 (some (81/500000000000000000000000))).set 183 (some (81/500000000000000000000000)), ((((((List.replicate 414 (0 : ℕ)).set 316 58).set 325 58).set 237 48).set 254 48).set 158 46).set 183 46⟩) := by
  rw [show (4 : ℕ) = 3 + 1 from rfl, rsm_succ]
  norm_num +decide [score_step, char_score_of, char_score_cascade, ScoreCtx.path_len,
    SENTINEL_SCORE, BASE_DISTANCE_PENALTY, ADDITIONAL_DISTANCE_PENALTY,
    MIN_DISTANCE_PENALTY, List.range', List.getD_cons_zero, List.getD_cons_succ,
    getD_set_self, getD_set_ne, getD_replicate, length_set_eq, List.length_replicate, c2e16]

set_option maxRecDepth 40000 in
set_option maxHeartbeats 1000000000 in
theorem c2e18 :
    recursive_score_match ⟨['a','b','c','d','e','f'], ['a','b','c','d','e','f'], ['X','X','X','X','X','X','X','X','X','A','X','X','X','X','X','X','X','X','X','B','X','X','X','X','X','X','X','X','X','C','X','X','X','X','X','X','X','X','X','D','X','/','a','/','b','/','c','/','d','X','X','X','X','X','X','X','X','X','E','X','X','X','X','X','X','X','X','X','F'], ['x','x','x','x','x','x','x','x','x','a','x','x','x','x','x','x','x','x','x','b','x','x','x','x','x','x','x','x','x','c','x','x','x','x','x','x','x','x','x','d','x','/','a','/','b','/','c','/','d','x','x','x','x','x','x','x','x','x','e','x','x','x','x','x','x','x','x','x','f'], [], [], true, [42, 44, 46, 48, 58, 68], 3/156250000000000000000000⟩
      5 1 10 (3/57500) ⟨List.replicate 414 (none : Option ℚ), List.replicate 414 (0 : ℕ)⟩ =
      ((729/5000000000000000000000000 : ℚ), ⟨((((((((List.replicate 414 (none : Option ℚ)).set 404 (some (1/1000000000000000000))).set 316 (some (1/5000000000000000000000))).set 325 (some (1/5000000000000000000000))).set 237 (some (9/50000000000000000000000))).set 254 (some (9/50000000000000000000000))).set 158 (some (81/500000000000000000000000))).set 183 (some (81/500000000000000000000000))).set 79 (some (729/5000000000000000000000000)), (((((((List.replicate 414 (0 : ℕ)).set 316 58).set 325 58).set 237 48).set 254 48).set 158 46).set 183 46).set 79 44⟩) := by
  rw [show (5 : ℕ) = 4 + 1 from rfl, rsm_succ]
  norm_num +decide [score_step, char_score_of, char_score_cascade, ScoreCtx.path_len,
    SENTINEL_SCORE, BASE_DISTANCE_PENALTY, ADDITIONAL_DISTANCE_PENALTY,
    MIN_DISTANCE_PENALTY, List.range', List.getD_cons_zero, List.getD_cons_succ,
    getD_set_self, getD_set_ne, getD_replicate, length_set_eq, List.length_replicate, c2e15, c2e17]

set_option maxRecDepth 40000 in
set_option maxHeartbeats 1000000000 in
theorem c2e19 :
    recursive_score_match ⟨['a','b','c','d','e','f'], ['a','b','c','d','e','f'], ['X','X','X','X','X','X','X','X','X','A','X','X','X','X','X','X','X','X','X','B','X','X','X','X','X','X','X','X','X','C','X','X','X','X','X','X','X','X','X','D','X','/','a','/','b','/','c','/','d','X','X','X','X','X','X','X','X','X','E','X','X','X','X','X','X','X','X','X','F'], ['x','x','x','x','x','x','x','x','x','a','x','x','x','x','x','x','x','x','x','b','x','x','x','x','x','x','x','x','x','c','x','x','x','x','x','x','x','x','x','d','x','/','a','/','b','/','c','/','d','x','x','x','x','x','x','x','x','x','e','x','x','x','x','x','x','x','x','x','f'], [], [], true, [42, 44, 46, 48, 58, 68], 3/156250000000000000000000⟩
      4 2 45 (243/1400) ⟨((((((((List.replicate 414 (none : Option ℚ)).set 404 (some (1/1000000000000000000))).set 316 (some (1/5000000000000000000000))).set 325 (some (1/5000000000000000000000))).set 237 (some (9/50000000000000000000000))).set 254 (some (9/50000000000000000000000))).set 158 (some (81/500000000000000000000000))).set 183 (some (81/500000000000000000000000))).set 79 (some (729/5000000000000000000000000)), (((((((List.replicate 414 (0 : ℕ)).set 316 58).set 325 58).set 237 48).set 254 48).set 158 46).set 183 46).set 79 44⟩ =
      ((81/500000000000000000000000 : ℚ), ⟨((((((((List.replicate 414 (none : Option ℚ)).set 404 (some (1/1000000000000000000))).set 316 (some (1/5000000000000000000000))).set 325 (some (1/5000000000000000000000))).set 237 (some (9/50000000000000000000000))).set 254 (some (9/50000000000000000000000))).set 158 (some (81/500000000000000000000000))).set 183 (some (81/500000000000000000000000))).set 79 (some (729/5000000000000000000000000)), (((((((List.replicate 414 (0 : ℕ)).set 316 58).set 325 58).set 237 48).set 254 48).set 158 46).set 183 46).set 79 44⟩) := by
  rw [show (4 : ℕ) = 3 + 1 from rfl, rsm_succ]
  norm_num +decide [ScoreCtx.path_len, getD_set_self, getD_set_ne,
    getD_replicate, length_set_eq, List.length_replicate]

set_option maxRecDepth 40000 in
set_option maxHeartbeats 1000000000 in
theorem c2e20 :
    recursive_score_match ⟨['a','b','c','d','e','f'], ['a','b','c','d','e','f'], ['X','X','X','X','X','X','X','X','X','A','X','X','X','X','X','X','X','X','X','B','X','X','X','X','X','X','X','X','X','C','X','X','X','X','X','X','X','X','X','D','X','/','a','/','b','/','c','/','d','X','X','X','X','X','X','X','X','X','E','X','X','X','X','X','X','X','X','X','F'], ['x','x','x','x','x','x','x','x','x','a','x','x','x','x','x','x','x','x','x','b','x','x','x','x','x','x','x','x','x','c','x','x','x','x','x','x','x','x','x','d','x','/','a','/','b','/','c','/','d','x','x','x','x','x','x','x','x','x','e','x','x','x','x','x','x','x','x','x','f'], [], [], true, [42, 44, 46, 48, 58, 68], 3/156250000000000000000000⟩
      5 1 43 (27/140) ⟨((((((((List.replicate 414 (none : Option ℚ)).set 404 (some (1/1000000000000000000))).set 316 (some (1/5000000000000000000000))).set 325 (some (1/5000000000000000000000))).set 237 (some (9/50000000000000000000000))).set 254 (some (9/50000000000000000000000))).set 158 (some (81/500000000000000000000000))).set 183 (some (81/500000000000000000000000))).set 79 (some (729/5000000000000000000000000)), (((((((List.replicate 414 (0 : ℕ)).set 316 58).set 325 58).set 237 48).set 254 48).set 158 46).set 183 46).set 79 44⟩ =
      ((729/5000000000000000000000000 : ℚ), ⟨(((((((((List.replicate 414 (none : Option ℚ)).set 404 (some (1/1000000000000000000))).set 316 (some (1/5000000000000000000000))).set 325 (some (1/5000000000000000000000))).set 237 (some (9/50000000000000000000000))).set 254 (some (9/50000000000000000000000))).set 158 (some (81/500000000000000000000000))).set 183 (some (81/500000000000000000000000))).set 79 (some (729/5000000000000000000000000))).set 112 (some (729/5000000000000000000000000)), ((((((((List.replicate 414 (0 : ℕ)).set 316 58).set 325 58).set 237 48).set 254 48).set 158 46).set 183 46).set 79 44).set 112 44⟩) := by
  rw [show (5 : ℕ) = 4 + 1 from rfl, rsm_succ]
  norm_num +decide [score_step, char_score_of, char_score_cascade, ScoreCtx.path_len,
    SENTINEL_SCORE, BASE_DISTANCE_PENALTY, ADDITIONAL_DISTANCE_PENALTY,
    MIN_DISTANCE_PENALTY, List.range', List.getD_cons_zero, List.getD_cons_succ,
    getD_set_self, getD_set_ne, getD_replicate, length_set_eq, List.length_replicate, c2e19]

set_option maxRecDepth 40000 in
set_option maxHeartbeats 1000000000 in
theorem c2e21 :
    recursive_score_match ⟨['a','b','c','d','e','f'], ['a','b','c','d','e','f'], ['X','X','X','X','X','X','X','X','X','A','X','X','X','X','X','X','X','X','X','B','X','X','X','X','X','X','X','X','X','C','X','X','X','X','X','X','X','X','X','D','X','/','a','/','b','/','c','/','d','X','X','X','X','X','X','X','X','X','E','X','X','X','X','X','X','X','X','X','F'], ['x','x','x','x','x','x','x','x','x','a','x','x','x','x','x','x','x','x','x','b','x','x','x','x','x','x','x','x','x','c','x','x','x','x','x','x','x','x','x','d','x','/','a','/','b','/','c','/','d','x','x','x','x','x','x','x','x','x','e','x','x','x','x','x','x','x','x','x','f'], [], [], true, [42, 44, 46, 48, 58, 68], 3/156250000000000000000000⟩
      6 0 0 (6) ⟨List.replicate 414 (none : Option ℚ), List.replicate 414 (0 : ℕ)⟩ =
      ((6561/1400000000000000000000000000 : ℚ), ⟨((((((((((List.replicate 414 (none : Option ℚ)).set 404 (some (1/1000000000000000000))).set 316 (some (1/5000000000000000000000))).set 325 (some (1/5000000000000000000000))).set 237 (some (9/50000000000000000000000))).set 254 (some (9/50000000000000000000000))).set 158 (some (81/500000000000000000000000))).set 183 (some (81/500000000000000000000000))).set 79 (some (729/5000000000000000000000000))).set 112 (some (729/5000000000000000000000000))).set 0 (some (6561/1400000000000000000000000000)), (((((((((List.replicate 414 (0 : ℕ)).set 316 58).set 325 58).set 237 48).set 254 48).set 158 46).set 183 46).set 79 44).set 112 44).set 0 42⟩) := by
  rw [show (6 : ℕ) = 5 + 1 from rfl, rsm_succ]
  norm_num +decide [score_step, char_score_of, char_score_cascade, ScoreCtx.path_len,
    SENTINEL_SCORE, BASE_DISTANCE_PENALTY, ADDITIONAL_DISTANCE_PENALTY,
    MIN_DISTANCE_PENALTY, List.range', List.getD_cons_zero, List.getD_cons_succ,
    getD_set_self, getD_set_ne, getD_replicate, length_set_eq, List.length_replicate, c2e18, c2e20]


theorem c2lc1 : toAsciiLower 'a' = 'a' := by decide
theorem c2lc2 : toAsciiLower 'b' = 'b' := by decide
theorem c2lc3 : toAsciiLower 'c' = 'c' := by decide
theorem c2lc4 : toAsciiLower 'd' = 'd' := by decide
theorem c2lc5 : toAsciiLower 'e' = 'e' := by decide
theorem c2lc6 : toAsciiLower 'f' = 'f' := by decide
theorem c2lc7 : toAsciiLower 'X' = 'x' := by decide
theorem c2lc8 : toAsciiLower 'A' = 'a' := by decide
theorem c2lc9 : toAsciiLower 'B' = 'b' := by decide
theorem c2lc10 : toAsciiLower 'C' = 'c' := by decide
theorem c2lc11 : toAsciiLower 'D' = 'd' := by decide
theorem c2lc12 : toAsciiLower 'E' = 'e' := by decide
theorem c2lc13 : toAsciiLower 'F' = 'f' := by decide
theorem c2lc14 : toAsciiLower '/' = '/' := by decide

theorem c2low1 : List.map toAsciiLower ['X','X','X','X','X','X','X','X','X','A','X','X','X','X','X','X','X','X','X','B','X','X','X','X','X','X','X','X','X','C','X','X','X','X','X','X','X','X','X','D','X','X','X','X','X','X','X','X','X','E','X','X','X','X','X','X','X','X','X','F'] = ['x','x','x','x','x','x','x','x','x','a','x','x','x','x','x','x','x','x','x','b','x','x','x','x','x','x','x','x','x','c','x','x','x','x','x','x','x','x','x','d','x','x','x','x','x','x','x','x','x','e','x','x','x','x','x','x','x','x','x','f'] := by decide

theorem c2low2 : List.map toAsciiLower ['X','X','X','X','X','X','X','X','X','A','X','X','X','X','X','X','X','X','X','B','X','X','X','X','X','X','X','X','X','C','X','X','X','X','X','X','X','X','X','D','X','/','a','/','b','/','c','/','d','X','X','X','X','X','X','X','X','X','E','X','X','X','X','X','X','X','X','X','F'] = ['x','x','x','x','x','x','x','x','x','a','x','x','x','x','x','x','x','x','x','b','x','x','x','x','x','x','x','x','x','c','x','x','x','x','x','x','x','x','x','d','x','/','a','/','b','/','c','/','d','x','x','x','x','x','x','x','x','x','e','x','x','x','x','x','x','x','x','x','f'] := by decide

theorem c2lowq : List.map toAsciiLower ['a','b','c','d','e','f'] = ['a','b','c','d','e','f'] := by decide

theorem c2flp1 : find_last_positions [] ['x','x','x','x','x','x','x','x','x','a','x','x','x','x','x','x','x','x','x','b','x','x','x','x','x','x','x','x','x','c','x','x','x','x','x','x','x','x','x','d','x','x','x','x','x','x','x','x','x','e','x','x','x','x','x','x','x','x','x','f'] ['a','b','c','d','e','f'] = some [9, 19, 29, 39, 49, 59] := by decide

theorem c2flp2 : find_last_positions [] ['x','x','x','x','x','x','x','x','x','a','x','x','x','x','x','x','x','x','x','b','x','x','x','x','x','x','x','x','x','c','x','x','x','x','x','x','x','x','x','d','x','/','a','/','b','/','c','/','d','x','x','x','x','x','x','x','x','x','e','x','x','x','x','x','x','x','x','x','f'] ['a','b','c','d','e','f'] = some [42, 44, 46, 48, 58, 68] := by decide

set_option maxRecDepth 40000 in
set_option maxHeartbeats 1000000000 in
theorem c2pc1 :
    process_candidate ⟨0, [], [⟨['X','X','X','X','X','X','X','X','X','A','X','X','X','X','X','X','X','X','X','B','X','X','X','X','X','X','X','X','X','C','X','X','X','X','X','X','X','X','X','D','X','X','X','X','X','X','X','X','X','E','X','X','X','X','X','X','X','X','X','F'], ['x','x','x','x','x','x','x','x','x','a','x','x','x','x','x','x','x','x','x','b','x','x','x','x','x','x','x','x','x','c','x','x','x','x','x','x','x','x','x','d','x','x','x','x','x','x','x','x','x','e','x','x','x','x','x','x','x','x','x','f']⟩, ⟨['X','X','X','X','X','X','X','X','X','A','X','X','X','X','X','X','X','X','X','B','X','X','X','X','X','X','X','X','X','C','X','X','X','X','X','X','X','X','X','D','X','/','a','/','b','/','c','/','d','X','X','X','X','X','X','X','X','X','E','X','X','X','X','X','X','X','X','X','F'], ['x','x','x','x','x','x','x','x','x','a','x','x','x','x','x','x','x','x','x','b','x','x','x','x','x','x','x','x','x','c','x','x','x','x','x','x','x','x','x','d','x','/','a','/','b','/','c','/','d','x','x','x','x','x','x','x','x','x','e','x','x','x','x','x','x','x','x','x','f']⟩], []⟩ false ['a','b','c','d','e','f'] ['a','b','c','d','e','f'] true 1 ⟨[], 0⟩
      ⟨['X','X','X','X','X','X','X','X','X','A','X','X','X','X','X','X','X','X','X','B','X','X','X','X','X','X','X','X','X','C','X','X','X','X','X','X','X','X','X','D','X','X','X','X','X','X','X','X','X','E','X','X','X','X','X','X','X','X','X','F'], ['x','x','x','x','x','x','x','x','x','a','x','x','x','x','x','x','x','x','x','b','x','x','x','x','x','x','x','x','x','c','x','x','x','x','x','x','x','x','x','d','x','x','x','x','x','x','x','x','x','e','x','x','x','x','x','x','x','x','x','f']⟩ =
    ⟨[⟨3/156250000000000000000000, [9, 19, 29, 39, 49, 59], 0, ['X','X','X','X','X','X','X','X','X','A','X','X','X','X','X','X','X','X','X','B','X','X','X','X','X','X','X','X','X','C','X','X','X','X','X','X','X','X','X','D','X','X','X','X','X','X','X','X','X','E','X','X','X','X','X','X','X','X','X','F']⟩], 3/156250000000000000000000⟩ := by
  norm_num +decide [process_candidate, score_match, build_positions, heap_min_score,
    c2lc1, c2lc2, c2lc3, c2lc4, c2lc5, c2lc6, c2lc7, c2lc8, c2lc9, c2lc10, c2lc11, c2lc12, c2lc13, c2lc14, c2flp1, c2e7, ScoreCtx.path_len, getD_set_self, getD_set_ne,
    getD_replicate, length_set_eq, List.length_replicate, List.min?, min_def]

set_option maxRecDepth 40000 in
set_option maxHeartbeats 1000000000 in
theorem c2pc2 :
    process_candidate ⟨0, [], [⟨['X','X','X','X','X','X','X','X','X','A','X','X','X','X','X','X','X','X','X','B','X','X','X','X','X','X','X','X','X','C','X','X','X','X','X','X','X','X','X','D','X','X','X','X','X','X','X','X','X','E','X','X','X','X','X','X','X','X','X','F'], ['x','x','x','x','x','x','x','x','x','a','x','x','x','x','x','x','x','x','x','b','x','x','x','x','x','x','x','x','x','c','x','x','x','x','x','x','x','x','x','d','x','x','x','x','x','x','x','x','x','e','x','x','x','x','x','x','x','x','x','f']⟩, ⟨['X','X','X','X','X','X','X','X','X','A','X','X','X','X','X','X','X','X','X','B','X','X','X','X','X','X','X','X','X','C','X','X','X','X','X','X','X','X','X','D','X','/','a','/','b','/','c','/','d','X','X','X','X','X','X','X','X','X','E','X','X','X','X','X','X','X','X','X','F'], ['x','x','x','x','x','x','x','x','x','a','x','x','x','x','x','x','x','x','x','b','x','x','x','x','x','x','x','x','x','c','x','x','x','x','x','x','x','x','x','d','x','/','a','/','b','/','c','/','d','x','x','x','x','x','x','x','x','x','e','x','x','x','x','x','x','x','x','x','f']⟩], []⟩ false ['a','b','c','d','e','f'] ['a','b','c','d','e','f'] true 1
      ⟨[⟨3/156250000000000000000000, [9, 19, 29, 39, 49, 59], 0, ['X','X','X','X','X','X','X','X','X','A','X','X','X','X','X','X','X','X','X','B','X','X','X','X','X','X','X','X','X','C','X','X','X','X','X','X','X','X','X','D','X','X','X','X','X','X','X','X','X','E','X','X','X','X','X','X','X','X','X','F']⟩], 3/156250000000000000000000⟩
      ⟨['X','X','X','X','X','X','X','X','X','A','X','X','X','X','X','X','X','X','X','B','X','X','X','X','X','X','X','X','X','C','X','X','X','X','X','X','X','X','X','D','X','/','a','/','b','/','c','/','d','X','X','X','X','X','X','X','X','X','E','X','X','X','X','X','X','X','X','X','F'], ['x','x','x','x','x','x','x','x','x','a','x','x','x','x','x','x','x','x','x','b','x','x','x','x','x','x','x','x','x','c','x','x','x','x','x','x','x','x','x','d','x','/','a','/','b','/','c','/','d','x','x','x','x','x','x','x','x','x','e','x','x','x','x','x','x','x','x','x','f']⟩ =
    ⟨[⟨19683/700000000000000000000000000, [42, 44, 46, 48, 58, 0], 0, ['X','X','X','X','X','X','X','X','X','A','X','X','X','X','X','X','X','X','X','B','X','X','X','X','X','X','X','X','X','C','X','X','X','X','X','X','X','X','X','D','X','/','a','/','b','/','c','/','d','X','X','X','X','X','X','X','X','X','E','X','X','X','X','X','X','X','X','X','F']⟩, ⟨3/156250000000000000000000, [9, 19, 29, 39, 49, 59], 0, ['X','X','X','X','X','X','X','X','X','A','X','X','X','X','X','X','X','X','X','B','X','X','X','X','X','X','X','X','X','C','X','X','X','X','X','X','X','X','X','D','X','X','X','X','X','X','X','X','X','E','X','X','X','X','X','X','X','X','X','F']⟩], 3/156250000000000000000000⟩ := by
  norm_num +decide [process_candidate, score_match, build_positions, heap_min_score,
    c2lc1, c2lc2, c2lc3, c2lc4, c2lc5, c2lc6, c2lc7, c2lc8, c2lc9, c2lc10, c2lc11, c2lc12, c2lc13, c2lc14, c2flp2, c2e21, ScoreCtx.path_len, getD_set_self, getD_set_ne,
    getD_replicate, length_set_eq, List.length_replicate, List.min?, min_def]

set_option maxRecDepth 40000 in
set_option maxHeartbeats 1000000000 in
/-- C2 counterexample: for the snapshot holding the two 60- and 69-character
candidate paths below (uppercase pads, an uppercase decoy chain, then a
slash-separated exact chain), query `abcdef`, `smart_case` on, `max_results = 1`
and one worker, `match_paths` returns exactly one match whose `positions` vector
`[42, 44, 46, 48, 58, 0]` is not strictly increasing: the first candidate fills
the heap and sets the pruning floor, the decoy chain of the second candidate is
fully pruned at subproblem `(5, 59)` and memoizes the `1e-18` sentinel without
writing `best_position_matrix`, and the winning slash chain reads that sentinel,
so the reconstruction reads an unwritten matrix cell and emits position `0`
after `58`. -/
theorem c2_counterexample_nonmonotonic_positions :
    ((match_paths [⟨0, [], [⟨['X','X','X','X','X','X','X','X','X','A','X','X','X','X','X','X','X','X','X','B','X','X','X','X','X','X','X','X','X','C','X','X','X','X','X','X','X','X','X','D','X','X','X','X','X','X','X','X','X','E','X','X','X','X','X','X','X','X','X','F'], ['x','x','x','x','x','x','x','x','x','a','x','x','x','x','x','x','x','x','x','b','x','x','x','x','x','x','x','x','x','c','x','x','x','x','x','x','x','x','x','d','x','x','x','x','x','x','x','x','x','e','x','x','x','x','x','x','x','x','x','f']⟩, ⟨['X','X','X','X','X','X','X','X','X','A','X','X','X','X','X','X','X','X','X','B','X','X','X','X','X','X','X','X','X','C','X','X','X','X','X','X','X','X','X','D','X','/','a','/','b','/','c','/','d','X','X','X','X','X','X','X','X','X','E','X','X','X','X','X','X','X','X','X','F'], ['x','x','x','x','x','x','x','x','x','a','x','x','x','x','x','x','x','x','x','b','x','x','x','x','x','x','x','x','x','c','x','x','x','x','x','x','x','x','x','d','x','/','a','/','b','/','c','/','d','x','x','x','x','x','x','x','x','x','e','x','x','x','x','x','x','x','x','x','f']⟩], []⟩] ['a','b','c','d','e','f'] false true true 1 false 1).map
        (fun m => m.positions) = [[42, 44, 46, 48, 58, 0]]) ∧
    ¬ List.Pairwise (fun a b : ℕ => a < b) [42, 44, 46, 48, 58, 0] := by
  refine ⟨?_, by decide⟩
  norm_num +decide [match_paths, match_paths_merged, run_worker, worker_slices,
    tree_files, total_path_count, Snapshot.file_count, Snapshot.visible_file_count,
    match_single_tree_paths, c2pc1, c2pc2, c2lc1, c2lc2, c2lc3, c2lc4, c2lc5, c2lc6, c2lc7, c2lc8, c2lc9, c2lc10, c2lc11, c2lc12, c2lc13, c2lc14, CharBag.is_superset, CharBag.ofChars,
    List.mergeSort, List.range_succ, List.range_zero, heap_min_score, List.min?, min_def]

/-! ## C2 amended machinery: positions length and bounds -/

theorem getD_mem_or_eq {α : Type} (l : List α) (i : ℕ) (d : α) :
    l.getD i d ∈ l ∨ l.getD i d = d := by
  by_cases h : i < l.length
  · left
    rw [List.getD_eq_getElem?_getD, List.getElem?_eq_getElem h]
    exact List.getElem_mem h
  · right
    rw [List.getD_eq_getElem?_getD, List.getElem?_eq_none (by omega)]
    rfl

theorem last_idx_lt_lt {l : List Char} {c : Char} {n j : ℕ}
    (h : last_idx_lt l c n = some j) : j < n := by
  unfold last_idx_lt at h
  have hm := List.mem_of_getLast?_eq_some h
  rw [List.mem_filter] at hm
  exact List.mem_range.mp hm.1

theorem flp_go_bounds (pfx path : List Char) :
    ∀ (rest : List Char) (path_n pfx_n : ℕ) (lp : List ℕ),
      path_n ≤ path.length → pfx_n ≤ pfx.length →
      flp_go pfx path rest path_n pfx_n = some lp →
      lp.length = rest.length ∧ ∀ x ∈ lp, x < pfx.length + path.length := by
  intro rest
  induction rest with
  | nil =>
    intro path_n pfx_n lp _ _ h
    simp only [flp_go] at h
    injection h with h
    subst h
    exact ⟨rfl, by simp⟩
  | cons c rest ih =>
    intro path_n pfx_n lp hpn hfn h
    simp only [flp_go] at h
    rcases hli : last_idx_lt path c path_n with _ | j
    · simp only [hli] at h
      rcases hli2 : last_idx_lt pfx c pfx_n with _ | j2
      · simp only [hli2] at h
        exact absurd h (by simp)
      · simp only [hli2] at h
        rcases hrec : flp_go pfx path rest 0 j2 with _ | lp'
        · simp only [hrec] at h
          exact absurd h (by simp)
        · simp only [hrec] at h
          obtain ⟨hlen, hbound⟩ := ih 0 j2 lp' (Nat.zero_le _)
            (le_of_lt (lt_of_lt_of_le (last_idx_lt_lt hli2) hfn)) hrec
          injection h with h
          subst h
          refine ⟨by simp [hlen], ?_⟩
          intro x hx
          rcases List.mem_cons.mp hx with hx | hx
          · subst hx
            have := lt_of_lt_of_le (last_idx_lt_lt hli2) hfn
            omega
          · exact hbound x hx
    · simp only [hli] at h
      rcases hrec : flp_go pfx path rest j pfx_n with _ | lp'
      · simp only [hrec] at h
        exact absurd h (by simp)
      · simp only [hrec] at h
        obtain ⟨hlen, hbound⟩ := ih j pfx_n lp'
          (le_of_lt (lt_of_lt_of_le (last_idx_lt_lt hli) hpn)) hfn hrec
        injection h with h
        subst h
        refine ⟨by simp [hlen], ?_⟩
        intro x hx
        rcases List.mem_cons.mp hx with hx | hx
        · subst hx
          have := lt_of_lt_of_le (last_idx_lt_lt hli) hpn
          omega
        · exact hbound x hx

theorem find_last_positions_bounds {pfx path query : List Char} {lp : List ℕ}
    (h : find_last_positions pfx path query = some lp) :
    lp.length = query.length ∧ ∀ x ∈ lp, x < pfx.length + path.length := by
  unfold find_last_positions at h
  rcases hgo : flp_go pfx path query.reverse path.length pfx.length with _ | lp'
  · simp only [hgo] at h
    exact absurd h (by simp)
  · simp only [hgo, Option.map_some] at h
    injection h with h
    subst h
    obtain ⟨hlen, hbound⟩ := flp_go_bounds pfx path query.reverse _ _ lp' le_rfl le_rfl hgo
    refine ⟨?_, ?_⟩
    · rw [List.length_reverse, hlen, List.length_reverse]
    · intro x hx
      exact hbound x (List.mem_reverse.mp hx)

set_option maxHeartbeats 2000000 in
theorem score_step_bpm_bound (ctx : ScoreCtx)
    (recur : ℕ → ℚ → ScoreMats → ℚ × ScoreMats)
    (hrec : ∀ p' c m, (∀ v ∈ m.best_position_matrix, v < ctx.path_len) →
      ∀ v ∈ (recur p' c m).2.best_position_matrix, v < ctx.path_len)
    (q p : ℕ) (cur : ℚ) (acc : LoopAcc) (j : ℕ) (hj : j < ctx.path_len)
    (hm : ∀ v ∈ acc.mats.best_position_matrix, v < ctx.path_len)
    (hb : acc.best_position < ctx.path_len ∨ acc.best_position = 0) :
    (∀ v ∈ (score_step ctx recur q p cur acc j).mats.best_position_matrix,
        v < ctx.path_len) ∧
    ((score_step ctx recur q p cur acc j).best_position < ctx.path_len ∨
      (score_step ctx recur q p cur acc j).best_position = 0) := by
  obtain ⟨res, hres⟩ : ∃ res, score_step ctx recur q p cur acc j = res := ⟨_, rfl⟩
  rw [hres]
  dsimp only [score_step] at hres
  generalize (if j < ctx.pfx.length then ctx.lowercase_pfx.getD j ' '
      else ctx.path_cased.getD (j - ctx.pfx.length) ' ') = pch at hres
  generalize (if q = 0 ∧ (pch = '/' ∨ pch = '\\') then j else acc.last_slash) = ls at hres
  generalize (if j < ctx.pfx.length then ctx.pfx.getD j ' '
      else ctx.path.getD (j - ctx.pfx.length) ' ') = cch at hres
  generalize (if j - 1 < ctx.pfx.length then ctx.pfx.getD (j - 1) ' '
      else ctx.path.getD (j - 1 - ctx.pfx.length) ' ') = lch at hres
  generalize char_score_of lch cch q j p = cs0 at hres
  generalize (if (ctx.smart_case = true ∨ cch = '/') ∧ ctx.query.getD q ' ' ≠ cch
      then cs0 * (1 / 1000) else cs0) = ch at hres
  generalize (if q = 0 then ch / ((ctx.path_len - ls : ℕ) : ℚ) else ch) = M at hres
  generalize (if 0 < ctx.min_score then cur * M else 1) = NS at hres
  repeat' split at hres
  all_goals subst hres
  all_goals
    first
      | exact ⟨hm, hb⟩
      | exact ⟨hrec _ _ _ hm, hb⟩
      | exact ⟨hrec _ _ _ hm, Or.inl hj⟩

theorem fold_bpm_bound (ctx : ScoreCtx)
    (recur : ℕ → ℚ → ScoreMats → ℚ × ScoreMats)
    (hrec : ∀ p' c m, (∀ v ∈ m.best_position_matrix, v < ctx.path_len) →
      ∀ v ∈ (recur p' c m).2.best_position_matrix, v < ctx.path_len)
    (q p : ℕ) (cur : ℚ) :
    ∀ (l : List ℕ), (∀ j ∈ l, j < ctx.path_len) →
      ∀ acc : LoopAcc,
        (∀ v ∈ acc.mats.best_position_matrix, v < ctx.path_len) →
        (acc.best_position < ctx.path_len ∨ acc.best_position = 0) →
        (∀ v ∈ (l.foldl (score_step ctx recur q p cur)
            acc).mats.best_position_matrix, v < ctx.path_len) ∧
        ((l.foldl (score_step ctx recur q p cur) acc).best_position < ctx.path_len ∨
          (l.foldl (score_step ctx recur q p cur) acc).best_position = 0) := by
  intro l
  induction l with
  | nil => intro _ acc hm hb; exact ⟨hm, hb⟩
  | cons j l ihl =>
    intro hjs acc hm hb
    rw [List.foldl_cons]
    obtain ⟨h1, h2⟩ := score_step_bpm_bound ctx recur hrec q p cur acc j
      (hjs j (List.mem_cons_self _ _)) hm hb
    exact ihl (fun j' hj' => hjs j' (List.mem_cons_of_mem _ hj')) _ h1 h2

theorem rsm_bpm_bound (ctx : ScoreCtx)
    (hlimit : ∀ i, ctx.last_positions.getD i 0 < ctx.path_len) :
    ∀ (fuel q p : ℕ) (cur : ℚ) (mats : ScoreMats),
      (∀ v ∈ mats.best_position_matrix, v < ctx.path_len) →
      ∀ v ∈ (recursive_score_match ctx fuel q p cur mats).2.best_position_matrix,
        v < ctx.path_len := by
  intro fuel
  induction fuel with
  | zero =>
    intro q p cur mats hm
    rw [rsm_zero]
    split <;> exact hm
  | succ fuel ih =>
    intro q p cur mats hm
    rw [rsm_succ]
    split
    · exact hm
    · rcases hmemo : mats.score_matrix.getD (q * ctx.path_len + p) none with _ | v0
      · simp only [hmemo]
        have hjs : ∀ j ∈ List.range' p (ctx.last_positions.getD q 0 + 1 - p),
            j < ctx.path_len := by
          intro j hj
          rw [List.mem_range'_1] at hj
          have := hlimit q
          omega
        obtain ⟨h1, h2⟩ := fold_bpm_bound ctx
          (fun p' c m => recursive_score_match ctx fuel (q + 1) p' c m)
          (fun p' c m hm' => ih (q + 1) p' c m hm') q p cur
          (List.range' p (ctx.last_positions.getD q 0 + 1 - p)) hjs
          ⟨0, 0, 0, mats, false⟩ hm (Or.inr rfl)
        intro v hv
        split at hv
        · rcases List.mem_or_eq_of_mem_set hv with hv | hv
          · exact h1 v hv
          · subst hv
            rcases h2 with h2 | h2
            · exact h2
            · simp_all
        · exact h1 v hv
      · simp only [hmemo]
        exact hm

theorem build_positions_length (bpm : List ℕ) (L : ℕ) :
    ∀ (n i c : ℕ), (build_positions bpm L n i c).length = n := by
  intro n
  induction n with
  | zero => intro i c; rfl
  | succ n ih =>
    intro i c
    simp only [build_positions, List.length_cons, ih]

theorem build_positions_bound (bpm : List ℕ) (L : ℕ) (hL : 0 < L)
    (hm : ∀ v ∈ bpm, v < L) :
    ∀ (n i c : ℕ), ∀ x ∈ build_positions bpm L n i c, x < L := by
  intro n
  induction n with
  | zero => intro i c x hx; exact absurd hx (List.not_mem_nil _)
  | succ n ih =>
    intro i c x hx
    simp only [build_positions] at hx
    rcases List.mem_cons.mp hx with hx | hx
    · subst hx
      rcases getD_mem_or_eq bpm (i * L + c) 0 with h | h
      · exact hm _ h
      · rw [h]
        exact hL
    · exact ih _ _ x hx

theorem score_match_len_zero (ctx : ScoreCtx) (mats : ScoreMats)
    (h : ctx.query.length = 0) : (score_match ctx mats).1 = 0 := by
  simp only [score_match, h]
  norm_num

theorem score_match_positions (ctx : ScoreCtx) (mats : ScoreMats)
    (hlimit : ∀ i, ctx.last_positions.getD i 0 < ctx.path_len)
    (hmats : ∀ v ∈ mats.best_position_matrix, v < ctx.path_len)
    (hL : 0 < ctx.path_len)
    (hpos : 0 < (score_match ctx mats).1) :
    (score_match ctx mats).2.2.length = ctx.query.length ∧
    ∀ x ∈ (score_match ctx mats).2.2, x < ctx.path_len := by
  by_cases hle : (recursive_score_match ctx ctx.query.length 0 0
      (ctx.query.length : ℚ) mats).1 * (ctx.query.length : ℚ) ≤ 0
  · exfalso
    have h0 : (score_match ctx mats).1 = 0 := by
      simp only [score_match]
      rw [if_pos hle]
    rw [h0] at hpos
    exact lt_irrefl 0 hpos
  · have hsm : (score_match ctx mats).2.2 =
        build_positions (recursive_score_match ctx ctx.query.length 0 0
            (ctx.query.length : ℚ) mats).2.best_position_matrix
          ctx.path_len ctx.query.length 0 0 := by
      simp only [score_match]
      rw [if_neg hle]
    rw [hsm]
    refine ⟨build_positions_length _ _ _ _ _, ?_⟩
    exact build_positions_bound _ _ hL
      (rsm_bpm_bound ctx hlimit ctx.query.length 0 0 _ mats hmats) _ _ _

theorem process_candidate_cases (snapshot : Snapshot) (irn : Bool)
    (query lq : List Char) (smart : Bool) (K : ℕ) (st : SegState) (c : MatchCandidate) :
    (process_candidate snapshot irn query lq smart K st c).results = st.results ∨
    ∃ lp r,
      find_last_positions ((if irn then snapshot.root_name else []).map toAsciiLower)
          (c.path.map toAsciiLower) lq = some lp ∧
      r = score_match
          ⟨query, lq, c.path, c.path.map toAsciiLower,
            if irn then snapshot.root_name else [],
            (if irn then snapshot.root_name else []).map toAsciiLower,
            smart, lp, st.min_score⟩
          ⟨List.replicate (query.length * (c.path.length +
              (if irn then snapshot.root_name else []).length)) none,
           List.replicate (query.length * (c.path.length +
              (if irn then snapshot.root_name else []).length)) 0⟩ ∧
      0 < r.1 ∧
      (process_candidate snapshot irn query lq smart K st c).results =
        PathMatch.mk r.1 r.2.2 snapshot.id c.path :: st.results := by
  cases irn
  all_goals simp only [process_candidate, Bool.false_eq_true, if_false, if_true, ite_true,
    ite_false]
  all_goals repeat' split
  all_goals
    first
      | exact Or.inl rfl
      | (refine Or.inr ⟨_, _, ?_, rfl, ?_, rfl⟩ <;> assumption)

theorem process_candidate_mem (snapshot : Snapshot) (irn : Bool)
    (query lq : List Char) (smart : Bool) (K : ℕ) (st : SegState) (c : MatchCandidate)
    (hlen : lq.length = query.length) :
    ∀ m ∈ (process_candidate snapshot irn query lq smart K st c).results,
      m ∈ st.results ∨
      (m.tree_id = snapshot.id ∧ m.positions.length = query.length ∧
        ∀ x ∈ m.positions,
          x < (if irn then snapshot.root_name else []).length + m.path.length) := by
  intro m hm
  rcases process_candidate_cases snapshot irn query lq smart K st c with
    hc | ⟨lp, r, hflp, hr, hpos, hres⟩
  · rw [hc] at hm
    exact Or.inl hm
  · rw [hres] at hm
    rcases List.mem_cons.mp hm with hme | hmt
    · right
      subst hr
      subst hme
      obtain ⟨hlplen, hbound⟩ := find_last_positions_bounds hflp
      rw [List.length_map, List.length_map] at hbound
      have hpl : (⟨query, lq, c.path, c.path.map toAsciiLower,
          if irn then snapshot.root_name else [],
          (if irn then snapshot.root_name else []).map toAsciiLower,
          smart, lp, st.min_score⟩ : ScoreCtx).path_len =
          (if irn then snapshot.root_name else []).length + c.path.length := by
        simp [ScoreCtx.path_len]
      have hq0 : 0 < query.length := by
        rcases Nat.eq_zero_or_pos query.length with hq | hq
        · exfalso
          rw [score_match_len_zero _ _ hq] at hpos
          exact lt_irrefl 0 hpos
        · exact hq
      have hlp0 : 0 < lp.length := by
        rw [hlplen, hlen]
        exact hq0
      obtain ⟨x0, hx0⟩ := List.exists_mem_of_length_pos hlp0
      have hL : 0 < (⟨query, lq, c.path, c.path.map toAsciiLower,
          if irn then snapshot.root_name else [],
          (if irn then snapshot.root_name else []).map toAsciiLower,
          smart, lp, st.min_score⟩ : ScoreCtx).path_len := by
        rw [hpl]
        exact lt_of_le_of_lt (Nat.zero_le _) (hbound x0 hx0)
      have hlim : ∀ i, ((⟨query, lq, c.path, c.path.map toAsciiLower,
          if irn then snapshot.root_name else [],
          (if irn then snapshot.root_name else []).map toAsciiLower,
          smart, lp, st.min_score⟩ : ScoreCtx).last_positions.getD i 0) <
          (⟨query, lq, c.path, c.path.map toAsciiLower,
          if irn then snapshot.root_name else [],
          (if irn then snapshot.root_name else []).map toAsciiLower,
          smart, lp, st.min_score⟩ : ScoreCtx).path_len := by
        intro i
        rcases getD_mem_or_eq lp i 0 with h | h
        · show lp.getD i 0 < _
          rw [hpl]
          exact hbound _ h
        · show lp.getD i 0 < _
          rw [h]
          exact hL
      have hmats : ∀ v ∈ (⟨List.replicate (query.length * (c.path.length +
            (if irn then snapshot.root_name else []).length)) none,
          List.replicate (query.length * (c.path.length +
            (if irn then snapshot.root_name else []).length)) 0⟩ :
            ScoreMats).best_position_matrix, v <
          (⟨query, lq, c.path, c.path.map toAsciiLower,
          if irn then snapshot.root_name else [],
          (if irn then snapshot.root_name else []).map toAsciiLower,
          smart, lp, st.min_score⟩ : ScoreCtx).path_len := by
        intro v hv
        rw [List.eq_of_mem_replicate hv]
        exact hL
      obtain ⟨hplen2, hpbound⟩ := score_match_positions _ _ hlim hmats hL hpos
      refine ⟨rfl, hplen2, ?_⟩
      intro x hx
      have := hpbound x hx
      rw [hpl] at this
      exact this
    · exact Or.inl hmt

theorem msp_mem (s : Snapshot) (irn : Bool) (query lq : List Char) (qc : CharBag)
    (smart : Bool) (K : ℕ) (cf : Bool) (hlen : lq.length = query.length) :
    ∀ (entries : List MatchCandidate) (st : SegState) (m : PathMatch),
      m ∈ (match_single_tree_paths s irn entries query lq qc smart K cf st).results →
      m ∈ st.results ∨
      (m.tree_id = s.id ∧ m.positions.length = query.length ∧
        ∀ x ∈ m.positions,
          x < (if irn then s.root_name else []).length + m.path.length) := by
  intro entries
  induction entries with
  | nil => intro st m hm; exact Or.inl hm
  | cons c rest ih =>
    intro st m hm
    simp only [match_single_tree_paths] at hm
    split at hm
    · exact ih st m hm
    · split at hm
      · exact Or.inl hm
      · rcases ih _ m hm with hmem | hP
        · exact process_candidate_mem s irn query lq smart K st c hlen m hmem
        · exact Or.inr hP

theorem worker_slices_fst_mem (ii : Bool) (a b : ℕ) :
    ∀ (snapshots : List Snapshot) (t : ℕ) (sc : Snapshot × List MatchCandidate),
      sc ∈ worker_slices ii a b snapshots t → sc.1 ∈ snapshots := by
  intro snapshots
  induction snapshots with
  | nil =>
    intro t sc h
    simp only [worker_slices] at h
    exact absurd h (List.not_mem_nil _)
  | cons s rest ih =>
    intro t sc h
    simp only [worker_slices] at h
    repeat' split at h
    all_goals
      first
        | exact absurd h (List.not_mem_nil _)
        | (rw [List.mem_singleton] at h
           rw [h]
           exact List.mem_cons_self _ _)
        | (rcases List.mem_append.mp h with h2 | h2
           · first
               | exact absurd h2 (List.not_mem_nil _)
               | (rw [List.mem_singleton] at h2
                  rw [h2]
                  exact List.mem_cons_self _ _)
           · exact List.mem_cons_of_mem _ (ih _ sc h2))

theorem slices_fold_mem (irn : Bool) (query lq : List Char) (qc : CharBag)
    (smart : Bool) (K : ℕ) (cf : Bool) (snapshots : List Snapshot)
    (hlen : lq.length = query.length) :
    ∀ (slices : List (Snapshot × List MatchCandidate)),
      (∀ sc ∈ slices, sc.1 ∈ snapshots) →
      ∀ (st : SegState) (m : PathMatch),
        m ∈ (slices.foldl (fun st sc =>
            match_single_tree_paths sc.1 irn sc.2 query lq qc smart K cf st)
          st).results →
        m ∈ st.results ∨
        ∃ s ∈ snapshots, m.tree_id = s.id ∧ m.positions.length = query.length ∧
          ∀ x ∈ m.positions,
            x < (if irn then s.root_name else []).length + m.path.length := by
  intro slices
  induction slices with
  | nil => intro _ st m hm; exact Or.inl hm
  | cons sc rest ih =>
    intro hin st m hm
    rw [List.foldl_cons] at hm
    rcases ih (fun x hx => hin x (List.mem_cons_of_mem _ hx)) _ m hm with hmem | hP
    · rcases msp_mem sc.1 irn query lq qc smart K cf hlen sc.2 st m hmem with hmem2 | hP2
      · exact Or.inl hmem2
      · exact Or.inr ⟨sc.1, hin sc (List.mem_cons_self _ _), hP2⟩
    · exact Or.inr hP

theorem run_worker_mem (irn ii : Bool) (query lq : List Char) (qc : CharBag)
    (smart : Bool) (K : ℕ) (cf : Bool) (snapshots : List Snapshot) (a b : ℕ)
    (hlen : lq.length = query.length) :
    ∀ m ∈ (run_worker irn ii query lq qc smart K cf snapshots a b).results,
      ∃ s ∈ snapshots, m.tree_id = s.id ∧ m.positions.length = query.length ∧
        ∀ x ∈ m.positions,
          x < (if irn then s.root_name else []).length + m.path.length := by
  intro m hm
  rw [run_worker] at hm
  rcases slices_fold_mem irn query lq qc smart K cf snapshots hlen
      (worker_slices ii a b snapshots 0)
      (fun sc hsc => worker_slices_fst_mem ii a b snapshots 0 sc hsc)
      ⟨[], 0⟩ m hm with hmem | hP
  · exact absurd hmem (List.not_mem_nil _)
  · exact hP

/-- C2 (amended): for every `PathMatch` returned by `match_paths`, the
`positions` vector has exactly one entry per character of the query, and each
entry is a valid index into `prefix ++ path` of the matched candidate, where
`prefix` is the snapshot's root name when `include_root_name` is set and empty
otherwise.  (The claim's strict-increase conjunct is dropped: the
counterexample shows `min_score` pruning can leave `best_position_matrix` cells
unwritten on the winning chain, making the reconstructed positions
non-monotonic.) -/
theorem c2_positions_length_and_bounds
    (snapshots : List Snapshot) (query_str : List Char)
    (include_root_name include_ignored smart_case : Bool) (max_results : ℕ)
    (cancel_flag : Bool) (cpus : ℕ) :
    ∀ m ∈ match_paths snapshots query_str include_root_name include_ignored smart_case
        max_results cancel_flag cpus,
      m.positions.length = query_str.length ∧
      ∃ s ∈ snapshots, m.tree_id = s.id ∧
        ∀ x ∈ m.positions,
          x < (if include_root_name then s.root_name else []).length + m.path.length := by
  intro m hm
  rw [match_paths] at hm
  have hm1 := List.mem_of_mem_take hm
  have hm2 := (List.mergeSort_perm (match_paths_merged snapshots query_str
      include_root_name include_ignored smart_case max_results cancel_flag cpus)
      (fun a b => decide (b.score ≤ a.score))).subset hm1
  simp only [match_paths_merged] at hm2
  rw [List.mem_flatten] at hm2
  obtain ⟨l, hl, hml⟩ := hm2
  rw [List.mem_map] at hl
  obtain ⟨w, hw, hlw⟩ := hl
  subst hlw
  obtain ⟨s, hs, hid, hplen, hbound⟩ := run_worker_mem include_root_name include_ignored
    query_str (query_str.map toAsciiLower) (CharBag.ofChars (query_str.map toAsciiLower))
    smart_case max_results cancel_flag snapshots _ _ (List.length_map _ _) m hml
  exact ⟨hplen, s, hs, hid, hbound⟩

/-- Witness for the amended C2 theorem: the single match of a one-file,
one-character query call. -/
theorem c2_positions_length_and_bounds_witness :
    ((⟨1, [0], 0, ['a']⟩ : PathMatch) ∈ match_paths [⟨0, [], [⟨['a'], ['a']⟩], []⟩] ['a']
        false true false 1 false 1) ∧
    ((⟨1, [0], 0, ['a']⟩ : PathMatch).positions.length = (['a'] : List Char).length ∧
      ∃ s ∈ [(⟨0, [], [⟨['a'], ['a']⟩], []⟩ : Snapshot)],
        (⟨1, [0], 0, ['a']⟩ : PathMatch).tree_id = s.id ∧
        ∀ x ∈ (⟨1, [0], 0, ['a']⟩ : PathMatch).positions,
          x < (if false then s.root_name else []).length +
            (⟨1, [0], 0, ['a']⟩ : PathMatch).path.length) := by
  have hmem : (⟨1, [0], 0, ['a']⟩ : PathMatch) ∈ match_paths [⟨0, [], [⟨['a'], ['a']⟩], []⟩]
      ['a'] false true false 1 false 1 := by
    norm_num +decide [match_paths, match_paths_merged, run_worker, worker_slices,
      tree_files, total_path_count, Snapshot.file_count, Snapshot.visible_file_count,
      match_single_tree_paths, process_candidate, score_match, recursive_score_match,
      score_step, char_score_of, char_score_cascade, ScoreCtx.path_len, build_positions,
      find_last_positions, flp_go, last_idx_lt, heap_min_score, CharBag.is_superset,
      CharBag.ofChars, toAsciiLower, SENTINEL_SCORE, BASE_DISTANCE_PENALTY,
      ADDITIONAL_DISTANCE_PENALTY, MIN_DISTANCE_PENALTY, List.range',
      List.range_succ, List.range_zero, List.replicate, List.getD_cons_zero,
      List.getD_cons_succ, List.mergeSort, List.min?, min_def]
  exact ⟨hmem, c2_positions_length_and_bounds _ _ _ _ _ _ _ _ _ hmem⟩
